import Mathlib

/-
Shallow embedding of the rule-evaluation core of ifctester (facet.py):
the Restriction matcher language, the six facet variants (Entity,
Attribute, Classification, PartOf, Property, Material), their
per-element evaluation (`__call__`), and `filter`.

Modelling conventions:
- Python values are a closed inductive `PyVal`; Python floats are
  modelled as exact rationals (the claims settled here depend only on
  order/sign facts that are robust to rounding).
- Python exceptions are modelled with `Except PyErr`; a function that
  can raise returns `Except PyErr α`.
- Python sets (used only to collect candidate material values and
  classification references) are modelled as lists without
  deduplication; only `any`-style membership and emptiness are
  observed by the embedded code, which agree with set semantics.
- External collaborators (the ifcopenshell model store and its utility
  modules) are not part of the source under verification; they are
  modelled from the spec as fields of `Element`/`Model` and marked
  `Modelled from the spec:` in their doc comments.
-/

set_option autoImplicit false

namespace IfcTester

/-- Python exception channel: which exception class escaped. -/
inductive PyErr where
  | unboundLocal (name : String)
  | attributeError (name : String)
  | keyError (name : String)
  | typeError (msg : String)
  | indexError
  | exception (msg : String)
deriving DecidableEq

/-- An exact unnormalized fraction modelling a Python float (Python
floats are binary fractions; the claims settled here depend only on
order and sign facts robust to rounding).  The denominator is
positive for every value the embedding constructs; comparisons are by
cross multiplication, so values are compared semantically. -/
structure PyFloat where
  num : Int
  den : Nat
deriving DecidableEq

/-- The float denoted by an integer. -/
def pfOfInt (n : Int) : PyFloat := ⟨n, 1⟩

/-- The float literal `1e-6`. -/
def pfMicro : PyFloat := ⟨1, 1000000⟩

/-- Float multiplication. -/
def pfMul (a b : PyFloat) : PyFloat := ⟨a.num * b.num, a.den * b.den⟩

/-- Float subtraction. -/
def pfSub (a b : PyFloat) : PyFloat :=
  ⟨a.num * (b.den : Int) - b.num * (a.den : Int), a.den * b.den⟩

/-- Float addition. -/
def pfAdd (a b : PyFloat) : PyFloat :=
  ⟨a.num * (b.den : Int) + b.num * (a.den : Int), a.den * b.den⟩

/-- Float equality (cross multiplication). -/
def pfEq (a b : PyFloat) : Bool :=
  a.num * (b.den : Int) == b.num * (a.den : Int)

/-- Float strict order (cross multiplication; denominators are
positive). -/
def pfLt (a b : PyFloat) : Bool :=
  a.num * (b.den : Int) < b.num * (a.den : Int)

/-- Float non-strict order. -/
def pfLe (a b : PyFloat) : Bool :=
  a.num * (b.den : Int) ≤ b.num * (a.den : Int)

/-- The rational value of a float (for stating numeric facts). -/
def pfVal (a : PyFloat) : ℚ := (a.num : ℚ) / (a.den : ℚ)

/-- The closed universe of Python values that flow through facet.py:
`None`, booleans, ints, floats (as exact rationals), strings,
lists, tuples, string-keyed dicts, and model entity references. -/
inductive PyVal where
  | VNone
  | VBool (b : Bool)
  | VInt (n : Int)
  | VFloat (x : PyFloat)
  | VStr (s : String)
  | VList (xs : List PyVal)
  | VTuple (xs : List PyVal)
  | VDict (kvs : List (String × PyVal))
  | VEntity (id : Nat)

mutual

/-- Decidable equality on `PyVal` (hand-written: the deriving handler
does not support this nested inductive). -/
def decEqPyVal : (a b : PyVal) → Decidable (a = b)
  | .VNone, .VNone => .isTrue rfl
  | .VBool a, .VBool b =>
    match decEq a b with
    | .isTrue h => .isTrue (by rw [h])
    | .isFalse h => .isFalse (by intro hc; cases hc; exact h rfl)
  | .VInt a, .VInt b =>
    match decEq a b with
    | .isTrue h => .isTrue (by rw [h])
    | .isFalse h => .isFalse (by intro hc; cases hc; exact h rfl)
  | .VFloat a, .VFloat b =>
    match decEq a b with
    | .isTrue h => .isTrue (by rw [h])
    | .isFalse h => .isFalse (by intro hc; cases hc; exact h rfl)
  | .VStr a, .VStr b =>
    match decEq a b with
    | .isTrue h => .isTrue (by rw [h])
    | .isFalse h => .isFalse (by intro hc; cases hc; exact h rfl)
  | .VList a, .VList b =>
    match decEqPyValList a b with
    | .isTrue h => .isTrue (by rw [h])
    | .isFalse h => .isFalse (by intro hc; cases hc; exact h rfl)
  | .VTuple a, .VTuple b =>
    match decEqPyValList a b with
    | .isTrue h => .isTrue (by rw [h])
    | .isFalse h => .isFalse (by intro hc; cases hc; exact h rfl)
  | .VDict a, .VDict b =>
    match decEqPyValPairs a b with
    | .isTrue h => .isTrue (by rw [h])
    | .isFalse h => .isFalse (by intro hc; cases hc; exact h rfl)
  | .VEntity a, .VEntity b =>
    match decEq a b with
    | .isTrue h => .isTrue (by rw [h])
    | .isFalse h => .isFalse (by intro hc; cases hc; exact h rfl)
  | .VNone, .VBool _ => .isFalse (by intro hc; cases hc)
  | .VNone, .VInt _ => .isFalse (by intro hc; cases hc)
  | .VNone, .VFloat _ => .isFalse (by intro hc; cases hc)
  | .VNone, .VStr _ => .isFalse (by intro hc; cases hc)
  | .VNone, .VList _ => .isFalse (by intro hc; cases hc)
  | .VNone, .VTuple _ => .isFalse (by intro hc; cases hc)
  | .VNone, .VDict _ => .isFalse (by intro hc; cases hc)
  | .VNone, .VEntity _ => .isFalse (by intro hc; cases hc)
  | .VBool _, .VNone => .isFalse (by intro hc; cases hc)
  | .VBool _, .VInt _ => .isFalse (by intro hc; cases hc)
  | .VBool _, .VFloat _ => .isFalse (by intro hc; cases hc)
  | .VBool _, .VStr _ => .isFalse (by intro hc; cases hc)
  | .VBool _, .VList _ => .isFalse (by intro hc; cases hc)
  | .VBool _, .VTuple _ => .isFalse (by intro hc; cases hc)
  | .VBool _, .VDict _ => .isFalse (by intro hc; cases hc)
  | .VBool _, .VEntity _ => .isFalse (by intro hc; cases hc)
  | .VInt _, .VNone => .isFalse (by intro hc; cases hc)
  | .VInt _, .VBool _ => .isFalse (by intro hc; cases hc)
  | .VInt _, .VFloat _ => .isFalse (by intro hc; cases hc)
  | .VInt _, .VStr _ => .isFalse (by intro hc; cases hc)
  | .VInt _, .VList _ => .isFalse (by intro hc; cases hc)
  | .VInt _, .VTuple _ => .isFalse (by intro hc; cases hc)
  | .VInt _, .VDict _ => .isFalse (by intro hc; cases hc)
  | .VInt _, .VEntity _ => .isFalse (by intro hc; cases hc)
  | .VFloat _, .VNone => .isFalse (by intro hc; cases hc)
  | .VFloat _, .VBool _ => .isFalse (by intro hc; cases hc)
  | .VFloat _, .VInt _ => .isFalse (by intro hc; cases hc)
  | .VFloat _, .VStr _ => .isFalse (by intro hc; cases hc)
  | .VFloat _, .VList _ => .isFalse (by intro hc; cases hc)
  | .VFloat _, .VTuple _ => .isFalse (by intro hc; cases hc)
  | .VFloat _, .VDict _ => .isFalse (by intro hc; cases hc)
  | .VFloat _, .VEntity _ => .isFalse (by intro hc; cases hc)
  | .VStr _, .VNone => .isFalse (by intro hc; cases hc)
  | .VStr _, .VBool _ => .isFalse (by intro hc; cases hc)
  | .VStr _, .VInt _ => .isFalse (by intro hc; cases hc)
  | .VStr _, .VFloat _ => .isFalse (by intro hc; cases hc)
  | .VStr _, .VList _ => .isFalse (by intro hc; cases hc)
  | .VStr _, .VTuple _ => .isFalse (by intro hc; cases hc)
  | .VStr _, .VDict _ => .isFalse (by intro hc; cases hc)
  | .VStr _, .VEntity _ => .isFalse (by intro hc; cases hc)
  | .VList _, .VNone => .isFalse (by intro hc; cases hc)
  | .VList _, .VBool _ => .isFalse (by intro hc; cases hc)
  | .VList _, .VInt _ => .isFalse (by intro hc; cases hc)
  | .VList _, .VFloat _ => .isFalse (by intro hc; cases hc)
  | .VList _, .VStr _ => .isFalse (by intro hc; cases hc)
  | .VList _, .VTuple _ => .isFalse (by intro hc; cases hc)
  | .VList _, .VDict _ => .isFalse (by intro hc; cases hc)
  | .VList _, .VEntity _ => .isFalse (by intro hc; cases hc)
  | .VTuple _, .VNone => .isFalse (by intro hc; cases hc)
  | .VTuple _, .VBool _ => .isFalse (by intro hc; cases hc)
  | .VTuple _, .VInt _ => .isFalse (by intro hc; cases hc)
  | .VTuple _, .VFloat _ => .isFalse (by intro hc; cases hc)
  | .VTuple _, .VStr _ => .isFalse (by intro hc; cases hc)
  | .VTuple _, .VList _ => .isFalse (by intro hc; cases hc)
  | .VTuple _, .VDict _ => .isFalse (by intro hc; cases hc)
  | .VTuple _, .VEntity _ => .isFalse (by intro hc; cases hc)
  | .VDict _, .VNone => .isFalse (by intro hc; cases hc)
  | .VDict _, .VBool _ => .isFalse (by intro hc; cases hc)
  | .VDict _, .VInt _ => .isFalse (by intro hc; cases hc)
  | .VDict _, .VFloat _ => .isFalse (by intro hc; cases hc)
  | .VDict _, .VStr _ => .isFalse (by intro hc; cases hc)
  | .VDict _, .VList _ => .isFalse (by intro hc; cases hc)
  | .VDict _, .VTuple _ => .isFalse (by intro hc; cases hc)
  | .VDict _, .VEntity _ => .isFalse (by intro hc; cases hc)
  | .VEntity _, .VNone => .isFalse (by intro hc; cases hc)
  | .VEntity _, .VBool _ => .isFalse (by intro hc; cases hc)
  | .VEntity _, .VInt _ => .isFalse (by intro hc; cases hc)
  | .VEntity _, .VFloat _ => .isFalse (by intro hc; cases hc)
  | .VEntity _, .VStr _ => .isFalse (by intro hc; cases hc)
  | .VEntity _, .VList _ => .isFalse (by intro hc; cases hc)
  | .VEntity _, .VTuple _ => .isFalse (by intro hc; cases hc)
  | .VEntity _, .VDict _ => .isFalse (by intro hc; cases hc)

/-- Decidable equality on lists of `PyVal`. -/
def decEqPyValList : (as bs : List PyVal) → Decidable (as = bs)
  | [], [] => .isTrue rfl
  | a :: as, b :: bs =>
    match decEqPyVal a b, decEqPyValList as bs with
    | .isTrue h1, .isTrue h2 => .isTrue (by rw [h1, h2])
    | .isFalse h1, _ => .isFalse (by intro hc; cases hc; exact h1 rfl)
    | _, .isFalse h2 => .isFalse (by intro hc; cases hc; exact h2 rfl)
  | [], _ :: _ => .isFalse (by intro hc; cases hc)
  | _ :: _, [] => .isFalse (by intro hc; cases hc)

/-- Decidable equality on string-keyed pair lists of `PyVal`. -/
def decEqPyValPairs : (as bs : List (String × PyVal)) → Decidable (as = bs)
  | [], [] => .isTrue rfl
  | (k, v) :: as, (k2, v2) :: bs =>
    match decEq k k2, decEqPyVal v v2, decEqPyValPairs as bs with
    | .isTrue h0, .isTrue h1, .isTrue h2 => .isTrue (by rw [h0, h1, h2])
    | .isFalse h0, _, _ => .isFalse (by intro hc; cases hc; exact h0 rfl)
    | _, .isFalse h1, _ => .isFalse (by intro hc; cases hc; exact h1 rfl)
    | _, _, .isFalse h2 => .isFalse (by intro hc; cases hc; exact h2 rfl)
  | [], _ :: _ => .isFalse (by intro hc; cases hc)
  | _ :: _, [] => .isFalse (by intro hc; cases hc)

end

instance : DecidableEq PyVal := decEqPyVal

namespace PyVal

/-- Numeric view used by Python `==`/`<` across int/float/bool. -/
def asRat? : PyVal → Option PyFloat
  | .VInt n => some (pfOfInt n)
  | .VFloat x => some x
  | .VBool b => some (pfOfInt (if b then 1 else 0))
  | _ => none

end PyVal

/-- Python truthiness (`bool(v)`). -/
def isTruthy : PyVal → Bool
  | .VNone => false
  | .VBool b => b
  | .VInt n => n != 0
  | .VFloat x => x.num != 0
  | .VStr s => s != ""
  | .VList xs => !xs.isEmpty
  | .VTuple xs => !xs.isEmpty
  | .VDict kvs => !kvs.isEmpty
  | .VEntity _ => true

mutual

/-- Python `==` on `PyVal`: numeric kinds compare by value, strings
by content, lists/tuples elementwise (a list never equals a tuple),
dicts as association lists (modelling note: Python dict equality is
key-set based, not order based; no settled claim observes the
difference). -/
def pyEq : PyVal → PyVal → Bool
  | .VStr a, .VStr b => a == b
  | .VNone, .VNone => true
  | .VEntity a, .VEntity b => a == b
  | .VList as, .VList bs => pyEqList as bs
  | .VTuple as, .VTuple bs => pyEqList as bs
  | .VDict as, .VDict bs => pyEqPairs as bs
  | a, b =>
    match a.asRat?, b.asRat? with
    | some x, some y => pfEq x y
    | _, _ => false

def pyEqList : List PyVal → List PyVal → Bool
  | [], [] => true
  | a :: as, b :: bs => pyEq a b && pyEqList as bs
  | _, _ => false

def pyEqPairs : List (String × PyVal) → List (String × PyVal) → Bool
  | [], [] => true
  | (k, v) :: as, (k2, v2) :: bs => k == k2 && pyEq v v2 && pyEqPairs as bs
  | _, _ => false

end

/-- Python `<` (used by bounds restrictions): numbers by value, strings
lexicographically; mixed kinds raise `TypeError`. -/
def pyLt : PyVal → PyVal → Except PyErr Bool
  | .VStr a, .VStr b => .ok (a < b)
  | a, b =>
    match a.asRat?, b.asRat? with
    | some x, some y => .ok (pfLt x y)
    | _, _ => .error (.typeError "unorderable types")

/-- Python `>` (see `pyLt`). -/
def pyGt : PyVal → PyVal → Except PyErr Bool
  | .VStr a, .VStr b => .ok (b < a)
  | a, b =>
    match a.asRat?, b.asRat? with
    | some x, some y => .ok (pfLt y x)
    | _, _ => .error (.typeError "unorderable types")

/-- Python `<=` (see `pyLt`). -/
def pyLe : PyVal → PyVal → Except PyErr Bool
  | .VStr a, .VStr b => .ok (a ≤ b)
  | a, b =>
    match a.asRat?, b.asRat? with
    | some x, some y => .ok (pfLe x y)
    | _, _ => .error (.typeError "unorderable types")

/-- Python `>=` (see `pyLt`). -/
def pyGe : PyVal → PyVal → Except PyErr Bool
  | .VStr a, .VStr b => .ok (b ≤ a)
  | a, b =>
    match a.asRat?, b.asRat? with
    | some x, some y => .ok (pfLe y x)
    | _, _ => .error (.typeError "unorderable types")

/-- ASCII lowercase of one character (Python `str.lower`, restricted
to the ASCII range used by the embedded code). -/
def lowerChar (c : Char) : Char :=
  if 65 ≤ c.toNat ∧ c.toNat ≤ 90 then Char.ofNat (c.toNat + 32) else c

/-- ASCII lowercase of a string (Python `str.lower`). -/
def lowerStr (s : String) : String :=
  String.mk (s.data.map lowerChar)

/-- ASCII uppercase of one character (Python `str.upper`). -/
def upperChar (c : Char) : Char :=
  if 97 ≤ c.toNat ∧ c.toNat ≤ 122 then Char.ofNat (c.toNat - 32) else c

/-- ASCII uppercase of a string (Python `str.upper`). -/
def upperStr (s : String) : String :=
  String.mk (s.data.map upperChar)

/-- Python whitespace test (`str.strip` characters). -/
def isSpaceCh (c : Char) : Bool :=
  c = ' ' || c = '\t' || c = '\n' || c = '\r' || c.toNat = 11 || c.toNat = 12

/-- Strip leading and trailing whitespace from a character list
(Python's implicit stripping in `float(...)`/`int(...)`). -/
def trimChars (cs : List Char) : List Char :=
  ((cs.dropWhile isSpaceCh).reverse.dropWhile isSpaceCh).reverse

/-- Decimal digit test on characters. -/
def isDigitCh (c : Char) : Bool :=
  48 ≤ c.toNat && c.toNat ≤ 57

/-- Value of a list of decimal digit characters. -/
def digitsVal (cs : List Char) : Nat :=
  cs.foldl (fun a c => a * 10 + (c.toNat - 48)) 0

/-- Python `float(string)` literal grammar: optional surrounding
whitespace, optional sign, digits with optional fraction, optional
exponent.  (Modelling note: special literals like inf/nan and digit
underscores are not modelled; no claim depends on them.) -/
def floatOfString (s : String) : Option PyFloat :=
  let cs := trimChars s.data
  let signed : Bool × List Char :=
    match cs with
    | '-' :: r => (true, r)
    | '+' :: r => (false, r)
    | r => (false, r)
  let neg := signed.1
  let afterSign := signed.2
  let ipSplit := afterSign.span isDigitCh
  let ip := ipSplit.1
  let fpSplit : List Char × List Char :=
    match ipSplit.2 with
    | '.' :: r => r.span isDigitCh
    | r => ([], r)
  let fp := fpSplit.1
  let rest := fpSplit.2
  if ip.isEmpty && fp.isEmpty then none
  else
    let mantNum : Int := digitsVal (ip ++ fp)
    let base : PyFloat := ⟨if neg then -mantNum else mantNum, 10 ^ fp.length⟩
    match rest with
    | [] => some base
    | 'e' :: r | 'E' :: r =>
      let esigned : Bool × List Char :=
        match r with
        | '-' :: r2 => (true, r2)
        | '+' :: r2 => (false, r2)
        | r2 => (false, r2)
      let edSplit := esigned.2.span isDigitCh
      if edSplit.1.isEmpty || !edSplit.2.isEmpty then none
      else
        let k := digitsVal edSplit.1
        some (if esigned.1 then ⟨base.num, base.den * 10 ^ k⟩
              else ⟨base.num * (10 : Int) ^ k, base.den⟩)
    | _ => none

/-- Python `int(string)` literal grammar (sign and digits). -/
def intOfString (s : String) : Option Int :=
  let cs := trimChars s.data
  let signed : Bool × List Char :=
    match cs with
    | '-' :: r => (true, r)
    | '+' :: r => (false, r)
    | r => (false, r)
  if signed.2.isEmpty || !(signed.2.all isDigitCh) then none
  else some (if signed.1 then -(digitsVal signed.2 : Int) else (digitsVal signed.2 : Int))

/-- Render a rational the way Python renders the corresponding float,
for denominators dividing a power of ten (the cases arising from the
embedded code); other denominators fall back to a fraction form. -/
def decimalStr (x : PyFloat) : String :=
  let sign := if x.num < 0 then "-" else ""
  let n := x.num.natAbs
  let d := x.den
  match (List.range 21).find? (fun k => 10 ^ k % d = 0) with
  | some 0 => sign ++ toString (n / d) ++ ".0"
  | some k =>
    let m := n * 10 ^ k / d
    let ipart := m / 10 ^ k
    let fpart := m % 10 ^ k
    let fs := toString fpart
    let fsPad := String.mk (List.replicate (k - fs.length) '0') ++ fs
    let fsTrim := String.mk (fsPad.data.reverse.dropWhile (· = '0')).reverse
    let fsFinal := if fsTrim = "" then "0" else fsTrim
    sign ++ toString ipart ++ "." ++ fsFinal
  | none => sign ++ toString n ++ "/" ++ toString d

/-- Python `str(v)`.  (Modelling note: list/tuple/dict/entity
renderings are coarse placeholders; the embedded code only calls
`str` on scalars in the paths exercised here.) -/
def pyStr : PyVal → String
  | .VNone => "None"
  | .VBool true => "True"
  | .VBool false => "False"
  | .VInt n => toString n
  | .VFloat x => decimalStr x
  | .VStr s => s
  | .VList _ => "<list>"
  | .VTuple _ => "<tuple>"
  | .VDict _ => "<dict>"
  | .VEntity n => "<entity " ++ toString n ++ ">"

/-- The runtime type name `type(v).__name__` used by `cast_to_value`
to index `builtins.__dict__`. -/
def typeName : PyVal → String
  | .VNone => "NoneType"
  | .VBool _ => "bool"
  | .VInt _ => "int"
  | .VFloat _ => "float"
  | .VStr _ => "str"
  | .VList _ => "list"
  | .VTuple _ => "tuple"
  | .VDict _ => "dict"
  | .VEntity _ => "entity_instance"

/-- Error channel inside `cast_to_value`: `ValueError` is caught by
the surrounding `except ValueError`, everything else escapes. -/
inductive CastErr where
  | valueError
  | typeError
  | keyError (name : String)
deriving DecidableEq

/-- Python `float(v)` constructor. -/
def floatCtor : PyVal → Except CastErr PyVal
  | .VStr s =>
    match floatOfString s with
    | some x => .ok (.VFloat x)
    | none => .error .valueError
  | .VInt n => .ok (.VFloat (pfOfInt n))
  | .VFloat x => .ok (.VFloat x)
  | .VBool b => .ok (.VFloat (pfOfInt (if b then 1 else 0)))
  | _ => .error .typeError

/-- Python `int(v)` constructor. -/
def intCtor : PyVal → Except CastErr PyVal
  | .VStr s =>
    match intOfString s with
    | some n => .ok (.VInt n)
    | none => .error .valueError
  | .VInt n => .ok (.VInt n)
  | .VFloat x => .ok (.VInt (Int.tdiv x.num x.den))
  | .VBool b => .ok (.VInt (if b then 1 else 0))
  | _ => .error .typeError

/-- Python `tuple(v)` / `list(v)` element extraction from an iterable. -/
def iterElems : PyVal → Except CastErr (List PyVal)
  | .VStr s => .ok (s.data.map (fun c => .VStr (String.mk [c])))
  | .VList xs => .ok xs
  | .VTuple xs => .ok xs
  | .VDict kvs => .ok (kvs.map (fun kv => .VStr kv.1))
  | _ => .error .typeError

/-- Lookup of a constructor in `builtins.__dict__` by type name and
application to the value; a name that is not a builtin raises
`KeyError`. -/
def builtinsCtor (name : String) (v : PyVal) : Except CastErr PyVal :=
  if name = "str" then .ok (.VStr (pyStr v))
  else if name = "float" then floatCtor v
  else if name = "int" then intCtor v
  else if name = "bool" then .ok (.VBool (isTruthy v))
  else if name = "tuple" then (iterElems v).map .VTuple
  else if name = "list" then (iterElems v).map .VList
  else .error (.keyError name)

/-- Embedding of `cast_to_value(from_value, to_value)` (facet.py lines
27-41): integer-typed targets cast the literal with `float`; boolean
targets return `True`/`False` for the exact literals `"TRUE"`/`"FALSE"`
and otherwise fall through to the builtin `bool` constructor; all other
targets apply the builtin constructor named after the target's runtime
type.  A `ValueError` is caught and the function returns `None`
(modelled as `.ok none`); any other exception escapes. -/
def castToValue (from_value to_value : PyVal) : Except PyErr (Option PyVal) :=
  let target_type := typeName to_value
  let inner : Except CastErr PyVal :=
    if target_type = "int" then
      floatCtor from_value
    else if target_type = "bool" then
      if pyEq from_value (.VStr "TRUE") then .ok (.VBool true)
      else if pyEq from_value (.VStr "FALSE") then .ok (.VBool false)
      else builtinsCtor target_type from_value
    else builtinsCtor target_type from_value
  match inner with
  | .ok v => .ok (some v)
  | .error .valueError => .ok none
  | .error .typeError => .error (.typeError "cast")
  | .error (.keyError n) => .error (.keyError n)

/-- The Python value denoted by an `Option PyVal` coming out of
`cast_to_value` (`None` when the cast failed). -/
def optToPy : Option PyVal → PyVal
  | some v => v
  | none => .VNone

/-- Effectful map over a list in the `Except` monad (a Python list
comprehension: elements in order, first exception escapes). -/
def mapExc {α β : Type} (f : α → Except PyErr β) : List α → Except PyErr (List β)
  | [] => .ok []
  | x :: xs => do
    let y ← f x
    let ys ← mapExc f xs
    .ok (y :: ys)

/-- Effectful filter over a list in the `Except` monad (a Python list
comprehension with a condition). -/
def filterExc {α : Type} (p : α → Except PyErr Bool) : List α → Except PyErr (List α)
  | [] => .ok []
  | x :: xs => do
    let b ← p x
    let ys ← filterExc p xs
    .ok (if b then x :: ys else ys)

/-- Effectful left fold in the `Except` monad (a Python for loop
threading state). -/
def foldlExc {σ α : Type} (f : σ → α → Except PyErr σ) : σ → List α → Except PyErr σ
  | s, [] => .ok s
  | s, x :: xs => do
    let s2 ← f s x
    foldlExc f s2 xs


/-- Modelled from the spec: one atom of the XSD-style pattern language
(a literal character, the wildcard, or a character class with ranges).
The pattern translation and regular-expression engine are external
collaborators (xmlschema `translate_pattern` and `re`); the spec only
requires a full-string match of an XSD-style pattern, and this
embedding supports the core constructs (literals, `.`, classes,
`*`, `+`, `?`, and brace-counted repetition). -/
inductive RAtom where
  | lit (c : Char)
  | dot
  | cls (neg : Bool) (ranges : List (Char × Char))
deriving DecidableEq

/-- A pattern token: an atom with its repetition bounds. -/
structure RTok where
  atom : RAtom
  lo : Nat
  hi : Option Nat
deriving DecidableEq

/-- Does one pattern atom match one character? -/
def matchAtom : RAtom → Char → Bool
  | .lit c, x => c = x
  | .dot, _ => true
  | .cls neg rs, x =>
    let inR := rs.any (fun r => decide (r.1 ≤ x) && decide (x ≤ r.2))
    if neg then !inR else inR

/-- Consume exactly `k` characters, all matching the atom. -/
def consumeAtom (a : RAtom) : Nat → List Char → Option (List Char)
  | 0, cs => some cs
  | k + 1, c :: cs => if matchAtom a c then consumeAtom a k cs else none
  | _ + 1, [] => none

/-- Full-string match of a token sequence against a character list
(with backtracking over repetition counts). -/
def matchToks : List RTok → List Char → Bool
  | [], cs => cs.isEmpty
  | t :: ts, cs =>
    let maxK := match t.hi with
      | some h => min h cs.length
      | none => cs.length
    (List.range (maxK + 1)).any fun k =>
      t.lo ≤ k &&
        (match consumeAtom t.atom k cs with
         | some cs2 => matchToks ts cs2
         | none => false)

/-- Parse the body of a character class up to `]`. -/
def parseClassBody : Nat → List Char → List (Char × Char) →
    Option (List (Char × Char) × List Char)
  | 0, _, _ => none
  | _ + 1, ']' :: rest, acc => some (acc.reverse, rest)
  | fuel + 1, a :: '-' :: b :: rest, acc =>
    if b = ']' then parseClassBody fuel (']' :: rest) ((a, a) :: ('-', '-') :: acc)
    else parseClassBody fuel rest ((a, b) :: acc)
  | fuel + 1, c :: rest, acc => parseClassBody fuel rest ((c, c) :: acc)
  | _, [], _ => none

/-- Parse an optional quantifier after an atom. -/
def parseQuant : List Char → (Nat × Option Nat) × List Char
  | '*' :: rest => ((0, none), rest)
  | '+' :: rest => ((1, none), rest)
  | '?' :: rest => ((0, some 1), rest)
  | '{' :: rest =>
    let d1 := rest.span isDigitCh
    if d1.1.isEmpty then ((1, some 1), '{' :: rest)
    else
      match d1.2 with
      | '}' :: rest2 => ((digitsVal d1.1, some (digitsVal d1.1)), rest2)
      | ',' :: rest2 =>
        let d2 := rest2.span isDigitCh
        (match d2.2 with
         | '}' :: rest3 =>
           if d2.1.isEmpty then ((digitsVal d1.1, none), rest3)
           else ((digitsVal d1.1, some (digitsVal d2.1)), rest3)
         | _ => ((1, some 1), '{' :: rest))
      | _ => ((1, some 1), '{' :: rest)
  | rest => ((1, some 1), rest)

/-- Parse a pattern string into tokens (fuelled recursion). -/
def parsePatAux : Nat → List Char → Option (List RTok)
  | 0, _ => none
  | _ + 1, [] => some []
  | fuel + 1, cs => do
    let (atom, rest) ←
      match cs with
      | '[' :: '^' :: r =>
        (parseClassBody (r.length + 1) r []).map (fun p => (RAtom.cls true p.1, p.2))
      | '[' :: r =>
        (parseClassBody (r.length + 1) r []).map (fun p => (RAtom.cls false p.1, p.2))
      | '.' :: r => some (RAtom.dot, r)
      | '\\' :: c :: r => some (RAtom.lit c, r)
      | c :: r => some (RAtom.lit c, r)
      | [] => none
    let q := parseQuant rest
    let toks ← parsePatAux fuel q.2
    some (⟨atom, q.1.1, q.1.2⟩ :: toks)

/-- Modelled from the spec: translate the XSD pattern and require a
full-string match (`identities.translate_pattern` + `re.fullmatch`). -/
def xsdFullMatch (pattern s : String) : Bool :=
  match parsePatAux (pattern.length + 1) pattern.data with
  | some toks => matchToks toks s.data
  | none => false

/-- One length comparison `eval(str(len(other)) + op)` from the length
restriction: the operator expression built from the option string is
evaluated against the candidate's length.  A string that is not a
comparison of this shape makes `eval` raise. -/
def lenCompare (n : Nat) (op : String) : Except PyErr Bool :=
  let evalRest (cs : List Char) (cmp : Int → Int → Bool) : Except PyErr Bool :=
    match intOfString (String.mk cs) with
    | some k => .ok (cmp n k)
    | none => .error (.exception "eval")
  match op.data with
  | '=' :: '=' :: rest => evalRest rest (fun a b => a = b)
  | '!' :: '=' :: rest => evalRest rest (fun a b => a ≠ b)
  | '>' :: '=' :: rest => evalRest rest (fun a b => a ≥ b)
  | '<' :: '=' :: rest => evalRest rest (fun a b => a ≤ b)
  | '>' :: rest => evalRest rest (fun a b => a > b)
  | '<' :: rest => evalRest rest (fun a b => a < b)
  | _ => .error (.exception "eval")

/-- Python iteration (`for x in v`): lists/tuples yield elements,
strings yield characters, dicts yield keys; other values raise. -/
def pyIter : PyVal → Except PyErr (List PyVal)
  | .VList xs => .ok xs
  | .VTuple xs => .ok xs
  | .VStr s => .ok (s.data.map (fun c => .VStr (String.mk [c])))
  | .VDict kvs => .ok (kvs.map (fun kv => .VStr kv.1))
  | _ => .error (.typeError "not iterable")

/-- Python `len(v)`. -/
def pyLen : PyVal → Except PyErr Nat
  | .VStr s => .ok s.length
  | .VList xs => .ok xs.length
  | .VTuple xs => .ok xs.length
  | .VDict kvs => .ok kvs.length
  | _ => .error (.typeError "no len")

/-- Python `x.lower()` on a value: only strings have `.lower`. -/
def lowerVal : PyVal → Except PyErr PyVal
  | .VStr s => .ok (.VStr (lowerStr s))
  | _ => .error (.attributeError "lower")

/-- A Restriction as manipulated by facet.py after construction or
parsing: a kind tag (`type`), a declared base type, and options whose
shape depends on the kind (all held as one Python value). -/
structure Restriction where
  type : String
  base : String
  options : PyVal
deriving DecidableEq

/-- Outcome of `Restriction.__init__`: either the attributes
`type`/`base`/`options` were assigned, or the constructor body was
skipped entirely (leaving the attributes unset). -/
inductive InitOutcome where
  | initialized (r : Restriction)
  | uninitialized
deriving DecidableEq

/-- Python `isinstance(v, list)`. -/
def isListV : PyVal → Bool
  | .VList _ => true
  | _ => false

/-- Python `isinstance(v, dict)`. -/
def isDictV : PyVal → Bool
  | .VDict _ => true
  | _ => false

/-- Python `isinstance(v, str)`. -/
def isStrV : PyVal → Bool
  | .VStr _ => true
  | _ => false

/-- Embedding of `Restriction.__init__(options, type, base)` (facet.py
lines 576-588): only the kinds enumeration/pattern/bounds enter the
constructor body, where the options shape is validated (list for
enumeration, dict for bounds, string for pattern) and a mismatch
raises; any other kind (such as "length") skips the body, assigning
nothing and raising nothing. -/
def Restriction.init (options : PyVal) (type base : String) : Except PyErr InitOutcome :=
  if type = "enumeration" ∨ type = "pattern" ∨ type = "bounds" then
    if (type = "enumeration" ∧ isListV options)
        ∨ (type = "bounds" ∧ isDictV options)
        ∨ (type = "pattern" ∧ isStrV options) then
      .ok (.initialized ⟨type, base, options⟩)
    else
      .error (.exception "Options were not properly defined.")
  else
    .ok .uninitialized

/-- The `Restriction()` default instance (options `""`, type
`"pattern"`, base `"string"`), as used by `Facet.parse`. -/
def Restriction.default : Restriction :=
  ⟨"pattern", "string", .VStr ""⟩

/-- The bounds comparison chain of `Restriction.__eq__`: conjunction
over the present bound keys, each comparison evaluated in order. -/
def boundsFold (other : PyVal) : List (String × PyVal) → Bool → Except PyErr Bool
  | [], acc => .ok acc
  | (sign, t) :: rest, acc => do
    let acc2 ←
      if sign = "minInclusive" then do
        let b ← pyLt other t
        pure (acc && !b)
      else if sign = "maxInclusive" then do
        let b ← pyGt other t
        pure (acc && !b)
      else if sign = "minExclusive" then do
        let b ← pyLe other t
        pure (acc && !b)
      else if sign = "maxExclusive" then do
        let b ← pyGe other t
        pure (acc && !b)
      else pure acc
    boundsFold other rest acc2

/-- The state-preserving branches of `Restriction.__eq__` (facet.py
lines 652-677): every branch other than the enumeration/bool one only
reads the restriction, computing the boolean match result.  The
enumeration branch here is only reached when the base is not `bool`
(the caller dispatches the bool case first, as the source's `elif`
chain does). -/
def Restriction.eqRest (self : Restriction) (other : PyVal) : Except PyErr Bool := do
  if self.type = "enumeration" then do
    let opts ← pyIter self.options
    let casted ← mapExc (fun o => castToValue o other) opts
    .ok (casted.any (fun c => pyEq other (optToPy c)))
  else if self.type = "bounds" then do
    let kvs ←
      match self.options with
      | .VDict kvs => pure kvs
      | _ => .error (.attributeError "keys")
    boundsFold other kvs true
  else if self.type = "length" then do
    let n ← pyLen other
    let opts ← pyIter self.options
    let bs ← mapExc (fun op =>
      match op with
      | .VStr s => lenCompare n s
      | _ => .error (.typeError "must be str")) opts
    .ok (bs.any id)
  else if self.type = "pattern" then do
    let pat ←
      match self.options with
      | .VList xs =>
        (match xs with
         | [] => .error .indexError
         | .VStr s :: _ => pure s
         | _ :: _ => .error (.typeError "pattern"))
      | .VStr s => pure s
      | _ => .error (.typeError "pattern")
    let s ←
      match other with
      | .VStr s => pure s
      | _ => .error (.typeError "fullmatch")
    .ok (xsdFullMatch pat s)
  else
    .ok false

/-- The body of `Restriction.__eq__` after its truthiness guard
(facet.py lines 649-681), returning the match result together with the
post-call restriction state: the enumeration/bool branch overwrites
`self.options` with the lowercased list; every other branch leaves
the restriction unchanged (`Restriction.eqRest`). -/
def Restriction.eqBody (self : Restriction) (other : PyVal) :
    Except PyErr (Bool × Restriction) :=
  if self.type = "enumeration" ∧ self.base = "bool" then do
    let opts ← pyIter self.options
    let lowered ← mapExc lowerVal opts
    let cand := PyVal.VStr (lowerStr (pyStr other))
    .ok (lowered.any (fun o => pyEq cand o), { self with options := .VList lowered })
  else
    (Restriction.eqRest self other).map (fun b => (b, self))

/-- Embedding of `Restriction.__eq__(other)` (facet.py lines 646-681):
the guard `if self and (other or other == 0)` (a `Restriction`
instance is always truthy) short-circuits every falsy candidate other
than numeric zero to a non-match, leaving the restriction untouched;
otherwise the per-kind body runs. -/
def Restriction.eq (self : Restriction) (other : PyVal) :
    Except PyErr (Bool × Restriction) :=
  if isTruthy other || pyEq other (.VInt 0) then Restriction.eqBody self other
  else .ok (false, self)

/-- One key of the `Restriction.parse` loop (facet.py lines 597-625),
acting on the running restriction state. -/
def parseStep (st : Restriction) (kv : String × PyVal) : Except PyErr Restriction :=
  let n := kv.1
  let v := kv.2
  let atValue (w : PyVal) : Except PyErr PyVal :=
    match w with
    | .VDict kvs =>
      (match kvs.lookup "@value" with
       | some x => .ok x
       | none => .error (.keyError "@value"))
    | _ => .error (.typeError "not subscriptable")
  if n = "enumeration" then do
    let items ← pyIter v
    let vals ← mapExc atValue items
    .ok { st with type := "enumeration", options := .VList vals }
  else if n.takeRight 7 = "clusive" then
    .error (.attributeError "append")
  else if n.takeRight 5 = "ength" then do
    let op :=
      if (n.drop 3).take 3 = "min" then ">="
      else if (n.drop 3).take 3 = "max" then "<="
      else "=="
    let xs ←
      match st.options with
      | .VList xs => pure xs
      | _ => .error (.attributeError "append")
    let w ← atValue v
    .ok { st with type := "length", options := .VList (xs ++ [.VStr (op ++ pyStr w)]) }
  else if n = "pattern" then do
    let w ← atValue v
    .ok { st with type := "pattern", options := w }
  else
    .ok st

/-- Embedding of `Restriction.parse(ids_dict)` (facet.py lines
590-626): read `@base` (dropping the `xs:` prefix, with a `"String"`
fallback), then fold the handler over every key in order.  The bounds
branch assigns `self.options = \x7b\x7d` and immediately calls
`.append` on that dict, which raises `AttributeError`; the length
branch calls `.append` on whatever `self.options` currently is. -/
def Restriction.parse (self : Restriction) (ids_dict : PyVal) : Except PyErr Restriction := do
  if isTruthy ids_dict then
    let kvs ←
      match ids_dict with
      | .VDict kvs => pure kvs
      | _ => .error (.typeError "not a dict")
    let base ←
      match kvs.lookup "@base" with
      | some (.VStr s) => pure (s.drop 3)
      | some _ => .error (.typeError "not subscriptable")
      | none => pure "String"
    foldlExc parseStep { self with base := base } kvs
  else
    .ok self

/-- Embedding of `Restriction.asdict()` (facet.py lines 628-644):
rebuild the `@base`-prefixed fragment; enumeration options are emitted
as repeated `xs:enumeration` entries, bounds as `xs:`-prefixed keys
with a stringified `@value` and `@fixed: False`, pattern as a
single-element `xs:pattern` list; a length restriction emits nothing
beyond `@base`. -/
def Restriction.asdict (self : Restriction) : Except PyErr PyVal := do
  let baseEntry := ("@base", PyVal.VStr ("xs:" ++ self.base))
  if self.type = "enumeration" then do
    let opts ← pyIter self.options
    if opts.isEmpty then
      .ok (.VDict [baseEntry])
    else
      .ok (.VDict [baseEntry,
        ("xs:enumeration", .VList (opts.map (fun o => .VDict [("@value", o)])))])
  else if self.type = "bounds" then do
    let kvs ←
      match self.options with
      | .VDict kvs => pure kvs
      | _ => .error (.typeError "indices must be str")
    .ok (.VDict (baseEntry :: kvs.map (fun kv =>
      ("xs:" ++ kv.1,
        PyVal.VList [.VDict [("@value", .VStr (pyStr kv.2)), ("@fixed", .VBool false)]]))))
  else if self.type = "pattern" then
    .ok (.VDict [baseEntry, ("xs:pattern", .VList [.VDict [("@value", self.options)]])])
  else
    .ok (.VDict [baseEntry])

/-- Decidable equality on `Except` values, used to settle concrete
evaluations of the embedding. -/
def decEqExcept {ε α : Type} [DecidableEq ε] [DecidableEq α] :
    (x y : Except ε α) → Decidable (x = y)
  | .ok a, .ok b =>
    match decEq a b with
    | .isTrue h => .isTrue (by rw [h])
    | .isFalse h => .isFalse (by intro hc; cases hc; exact h rfl)
  | .error a, .error b =>
    match decEq a b with
    | .isTrue h => .isTrue (by rw [h])
    | .isFalse h => .isFalse (by intro hc; cases hc; exact h rfl)
  | .ok _, .error _ => .isFalse (by intro hc; cases hc)
  | .error _, .ok _ => .isFalse (by intro hc; cases hc)

instance {ε α : Type} [DecidableEq ε] [DecidableEq α] : DecidableEq (Except ε α) :=
  decEqExcept

/-- A facet parameter value: a plain Python value (string, number,
`None`, ...), a single `Restriction`, or a list of `Restriction`s
(the XSD choice-of-restrictions form). -/
inductive FParam where
  | val (v : PyVal)
  | restr (r : Restriction)
  | restrList (rs : List Restriction)
deriving DecidableEq

/-- Python truthiness of a facet parameter (`if self.value:`):
a `Restriction` instance is always truthy, a list is truthy when
non-empty. -/
def isTruthyF : FParam → Bool
  | .val v => isTruthy v
  | .restr _ => true
  | .restrList rs => !rs.isEmpty

/-- Python `==` between a facet parameter and a plain value, in either
operand order: when the parameter is a plain value this is `pyEq`;
when it is a `Restriction`, Python dispatches (directly or by
reflection) to `Restriction.__eq__`, whose boolean result is used
(the state change of the enum/bool branch is tracked separately by
`Restriction.eq`); a list of restrictions compares elementwise
against list candidates and is unequal to everything else. -/
def fparamEqVal (p : FParam) (v : PyVal) : Except PyErr Bool :=
  match p with
  | .val w => .ok (pyEq w v)
  | .restr r => (Restriction.eq r v).map Prod.fst
  | .restrList rs =>
    match v with
    | .VList vs =>
      if rs.length = vs.length then
        foldlExc
          (fun acc rv => ((Restriction.eq rv.1 rv.2).map Prod.fst).map (acc && ·))
          true (List.zip rs vs)
      else .ok false
    | _ => .ok false

/-- Modelled from the spec: one inverse `HasAssignments` relationship
of an element — whether it is a group assignment
(`rel.is_a("IfcRelAssignsToGroup")`) and the declared type of its
`RelatingGroup`. -/
structure RelAssign where
  isGroupAssignment : Bool
  relatingGroupIsA : String
deriving DecidableEq

/-- Modelled from the spec: a classification reference attached to an
element — its identification (or item-reference) value, the name of
its owning classification system, and the identification/system pairs
of all ancestor references reachable through the classification
hierarchy (`get_inherited_references`). -/
structure ClassificationRef where
  identification : PyVal
  systemName : PyVal
  inherited : List (PyVal × PyVal)
deriving DecidableEq

/-- Modelled from the spec: one layer/profile/constituent of a
composite material set, with its own name and category and its
underlying material's name and category. -/
structure MatLayer where
  name : PyVal
  category : PyVal
  materialName : PyVal
  materialCategory : PyVal
deriving DecidableEq

/-- Modelled from the spec: the material definition resolved for an
element by `get_material(..., should_skip_usage=True)` — a single
material, a material list, a layer set, a profile set, a constituent
set, or some other material kind (usage wrappers already skipped). -/
inductive MaterialDef where
  | mat (name category : PyVal)
  | matList (mats : List (PyVal × PyVal))
  | layerSet (layerSetName : PyVal) (layers : List MatLayer)
  | profileSet (name : PyVal) (profiles : List MatLayer)
  | constituentSet (name : PyVal) (constituents : List MatLayer)
  | otherKind (typeName : String)
deriving DecidableEq

/-- Modelled from the spec: an `IfcPropertySingleValue`-style entity
inside a property set, as seen through `HasProperties`: its name,
whether it is a single-value property, its nominal value's declared
type tag and wrapped value (`none` when `NominalValue` is `None`),
and the SI conversion factor of its unit, when it has one
(`get_property_unit` + `si_type_names`). -/
structure PropEntity where
  name : String
  isSingleValue : Bool
  nominalValue : Option (String × PyVal)
  unitFactor : Option PyFloat
deriving DecidableEq

/-- Modelled from the spec: one property set of an element as returned
by `get_psets`: its name, the name-to-value mapping (which includes
the `"id"` key pointing at the property-set entity), and the
`HasProperties` view of that entity. -/
structure Pset where
  name : String
  props : List (String × PyVal)
  hasProperties : List PropEntity
deriving DecidableEq

/-- Modelled from the spec: a model element together with everything
the facet evaluation core queries about it from the external model
collaborators: its exact declared type, forward attributes, declared
attribute value-kinds, inverse attribute names, type object, resolved
predefined type, aggregation parent, spatial container, group
assignments, nesting parents, resolved material, property sets, and
classification references. -/
structure Element where
  id : Nat
  is_a : String
  attributes : List (String × PyVal)
  attrTypes : List (String × String)
  inverseAttributeNames : List String
  typeRefId : Option Nat
  predefinedType : PyVal
  aggregateParentId : Option Nat
  containerId : Option Nat
  hasAssignments : List RelAssign
  nestsParentIds : List Nat
  material : Option MaterialDef
  psets : List Pset
  classRefs : List ClassificationRef
deriving DecidableEq

/-- Modelled from the spec: the model store — its elements and the
schema type names exposed by `wrapped_data.types()`. -/
structure Model where
  elements : List Element
  typeNames : List String
deriving DecidableEq

/-- Modelled from the spec: entity lookup by id. -/
def byId (m : Model) (k : Nat) : Option Element :=
  m.elements.find? (fun e => e.id = k)

/-- Modelled from the spec: `ifcopenshell.util.element.get_type` —
the type object associated with an occurrence. -/
def get_type (m : Model) (e : Element) : Option Element :=
  e.typeRefId.bind (byId m)

/-- Modelled from the spec: `ifcopenshell.util.element.get_aggregate`
— the immediate aggregation parent. -/
def get_aggregate (m : Model) (e : Element) : Option Element :=
  e.aggregateParentId.bind (byId m)

/-- Modelled from the spec: `ifcopenshell.util.element.get_container`
— the element's spatial container. -/
def get_container (m : Model) (e : Element) : Option Element :=
  e.containerId.bind (byId m)

/-- Embedding of `PartOf.get_nested_whole` (facet.py lines 384-386):
the `RelatingObject` of the first `Nests` relationship, if any. -/
def get_nested_whole (m : Model) (e : Element) : Option Element :=
  match e.nestsParentIds with
  | [] => none
  | k :: _ => byId m k

/-- Modelled from the spec: `ifc_file.by_type(name,
include_subtypes=False)` — the elements whose exact declared type
equals the given name (case-insensitively), in model order. -/
def by_type (m : Model) (name : String) : List Element :=
  m.elements.filter (fun e => upperStr e.is_a = upperStr name)

/-- Python `getattr(element, name, None)` for forward attributes:
the stored attribute value, or `None` when absent. -/
def getattrD (e : Element) (name : String) : PyVal :=
  (e.attributes.lookup name).getD .VNone

/-- Python `element.get_info()`: the id and type entries followed by
the attribute mapping. -/
def get_info (e : Element) : List (String × PyVal) :=
  ("id", .VInt e.id) :: ("type", .VStr e.is_a) :: e.attributes

/-- Python `dict.update`: entries of the second mapping override the
first, new keys appended. -/
def dictUpdate (base upd : List (String × PyVal)) : List (String × PyVal) :=
  base.map (fun kv => (kv.1, ((upd.lookup kv.1).getD kv.2)))
    ++ upd.filter (fun kv => (base.lookup kv.1).isNone)

/-- Modelled from the spec: SI unit conversion of a property value
(`ifcopenshell.util.unit.convert` to the SI equivalent), as a factor
applied to numeric values. -/
def convertSI : PyVal → PyFloat → PyVal
  | .VFloat x, fac => .VFloat (pfMul x fac)
  | .VInt n, fac => .VFloat (pfMul (pfOfInt n) fac)
  | v, _ => v

/-- A typed failure reason: the `type` tag and the optional observed
`actual` value. -/
structure Reason where
  type : String
  actual : Option PyVal
deriving DecidableEq

/-- Outcome of one facet evaluation against one element. -/
structure Result where
  is_pass : Bool
  reason : Option Reason
deriving DecidableEq

/-- The `PROHIBITED` reason produced by the `maxOccurs == 0`
postprocessing of every cardinality-bearing facet variant. -/
def prohibitedReason : Reason :=
  ⟨"PROHIBITED", none⟩

/-- The Entity facet: parameters name, predefinedType, instructions
(facet.py lines 110-121); it has no minOccurs/maxOccurs parameters. -/
structure Entity where
  name : FParam
  predefinedType : FParam
  instructions : FParam
deriving DecidableEq

/-- The Attribute facet: parameters name, value, minOccurs, maxOccurs,
instructions (facet.py lines 151-162).  The cardinalities are held as
optional integers (`none` is Python `None`). -/
structure Attribute where
  name : FParam
  value : FParam
  minOccurs : Option Int
  maxOccurs : Option Int
  instructions : FParam
deriving DecidableEq

/-- The Classification facet: parameters value, system, uri,
minOccurs, maxOccurs, instructions (facet.py lines 256-269). -/
structure Classification where
  value : FParam
  system : FParam
  uri : FParam
  minOccurs : Option Int
  maxOccurs : Option Int
  instructions : FParam
deriving DecidableEq

/-- The PartOf facet: parameters entity, relation, minOccurs,
maxOccurs, instructions (facet.py lines 307-318). -/
structure PartOf where
  entity : FParam
  relation : String
  minOccurs : Option Int
  maxOccurs : Option Int
  instructions : FParam
deriving DecidableEq

/-- The Property facet: parameters propertySet, name, value, measure,
uri, minOccurs, maxOccurs, instructions (facet.py lines 389-419). -/
structure Property where
  propertySet : FParam
  name : FParam
  value : FParam
  measure : FParam
  uri : FParam
  minOccurs : Option Int
  maxOccurs : Option Int
  instructions : FParam
deriving DecidableEq

/-- The Material facet: parameters value, uri, minOccurs, maxOccurs,
instructions (facet.py lines 516-527). -/
structure Material where
  value : FParam
  uri : FParam
  minOccurs : Option Int
  maxOccurs : Option Int
  instructions : FParam
deriving DecidableEq

/-- Embedding of `Entity.__call__` (facet.py lines 134-148): pass iff
the element's declared type, upper-cased, equals `name`; when
`predefinedType` is set, additionally require the resolved predefined
type to equal it.  Entity has no cardinality handling. -/
def Entity.call (f : Entity) (m : Model) (inst : Element) : Except PyErr Result := do
  let b ← fparamEqVal f.name (.VStr (upperStr inst.is_a))
  let reason : Option Reason :=
    if b then none else some ⟨"NAME", some (.VStr (upperStr inst.is_a))⟩
  if b ∧ isTruthyF f.predefinedType then do
    let predefined_type := inst.predefinedType
    let b2 ← fparamEqVal f.predefinedType predefined_type
    if b2 then pure ⟨true, none⟩
    else pure ⟨false, some ⟨"PREDEFINEDTYPE", some predefined_type⟩⟩
  else
    pure ⟨b, reason⟩

/-- Python `value is None` on `PyVal`. -/
def isNoneV : PyVal → Bool
  | .VNone => true
  | _ => false

/-- The falsey/invalid scan of `Attribute.__call__` (facet.py lines
200-222): per resolved value, fail `FALSEY` on `None`, `""`, `()`, or
an `UNKNOWN` logical; fail `INVALID` when the name is an inverse
attribute (modelling note: the `get_argument_index`/`attribute_type`
probe inside the `try` is modelled as a lookup in the element's
declared attribute kinds, its failure falling to the `except`
branch). -/
def attrFalseyLoop (inst : Element) : List String → List PyVal → Bool × Option Reason
  | _, [] => (true, none)
  | [], _ :: _ => (true, none)
  | nm :: nms, v :: vs =>
    if isNoneV v then (false, some ⟨"FALSEY", some v⟩)
    else if pyEq v (.VStr "") then (false, some ⟨"FALSEY", some v⟩)
    else if pyEq v (.VTuple []) then (false, some ⟨"FALSEY", some v⟩)
    else
      match inst.attrTypes.lookup nm with
      | some t =>
        if t = "LOGICAL" ∧ pyEq v (.VStr "UNKNOWN") then (false, some ⟨"FALSEY", some v⟩)
        else attrFalseyLoop inst nms vs
      | none =>
        if nm ∈ inst.inverseAttributeNames then (false, some ⟨"INVALID", none⟩)
        else attrFalseyLoop inst nms vs

/-- The value-comparison loop of `Attribute.__call__` (facet.py lines
224-249): structured references never match; strings compare exactly;
a string expectation against a non-string candidate is cast with
`cast_to_value` and, when both sides are floats, compared within the
interval `[cast*(1-1e-6), cast*(1+1e-6)]`; otherwise plain equality
(against the restriction, when the expectation is one). -/
def attrValueLoop (fval : FParam) : List PyVal → Except PyErr (Bool × Option Reason)
  | [] => .ok (true, none)
  | v :: vs =>
    match v with
    | .VEntity _ => .ok (false, some ⟨"VALUE", some v⟩)
    | _ =>
      match fval, v with
      | .val (.VStr s), .VStr t =>
        if t ≠ s then .ok (false, some ⟨"VALUE", some v⟩)
        else attrValueLoop fval vs
      | .val (.VStr s), _ => do
        let cast ← castToValue (.VStr s) v
        match v, cast with
        | .VFloat q, some (.VFloat c) =>
          if pfLt q (pfMul c (pfSub (pfOfInt 1) pfMicro))
              ∨ pfLt (pfMul c (pfAdd (pfOfInt 1) pfMicro)) q then
            .ok (false, some ⟨"VALUE", some v⟩)
          else attrValueLoop fval vs
        | _, _ =>
          if ¬ pyEq v (optToPy cast) then .ok (false, some ⟨"VALUE", some v⟩)
          else attrValueLoop fval vs
      | _, _ => do
        let b ← fparamEqVal fval v
        if ¬ b then .ok (false, some ⟨"VALUE", some v⟩)
        else attrValueLoop fval vs

/-- The body of `Attribute.__call__` between the cardinality pre-check
and the `maxOccurs == 0` postprocessing (facet.py lines 168-249):
resolve candidate values (occurrence value preferred over type value;
for a non-string name, all matching entries of the type-overlaid
attribute mapping), fail `NOVALUE` when none resolved, then run the
falsey scan and the value comparison. -/
def Attribute.body (f : Attribute) (m : Model) (inst : Element) :
    Except PyErr (Bool × Option Reason) := do
  let element_type := get_type m inst
  let nv ←
    match f.name with
    | .val (.VStr nm) =>
      let type_value :=
        match element_type with
        | some t => getattrD t nm
        | none => PyVal.VNone
      let occurrence_value := getattrD inst nm
      pure ([nm], [if isNoneV occurrence_value then type_value else occurrence_value])
    | p => do
      let info :=
        match element_type with
        | some t => dictUpdate (get_info t) ((get_info inst).filter (fun kv => !isNoneV kv.2))
        | none => get_info inst
      let matching ← filterExc (fun kv => fparamEqVal p (.VStr kv.1)) info
      pure (matching.map Prod.fst, matching.map Prod.snd)
  let names := nv.1
  let values := nv.2
  if values.isEmpty then
    pure (false, some ⟨"NOVALUE", none⟩)
  else
    let st1 := attrFalseyLoop inst names values
    if st1.1 ∧ isTruthyF f.value then attrValueLoop f.value values
    else pure st1

/-- Embedding of `Attribute.__call__` (facet.py lines 164-253): the
cardinality pre-check (`minOccurs == 0 and maxOccurs != 0` passes
unconditionally), the body, and the `maxOccurs == 0` inversion into a
`PROHIBITED` result. -/
def Attribute.call (f : Attribute) (m : Model) (inst : Element) : Except PyErr Result :=
  if f.minOccurs = some 0 ∧ f.maxOccurs ≠ some 0 then .ok ⟨true, none⟩
  else
    (Attribute.body f m inst).map (fun pr =>
      if f.maxOccurs = some 0 then ⟨!pr.1, some prohibitedReason⟩ else ⟨pr.1, pr.2⟩)

/-- The `any([...])` comparison of Classification (facet.py lines
292, 298): the full comprehension is built first, so every comparison
is evaluated before `any`. -/
def allEqList (p : FParam) (vs : List PyVal) : Except PyErr Bool := do
  let bs ← mapExc (fun v => fparamEqVal p v) vs
  pure (bs.any id)

/-- The body of `Classification.__call__` between the cardinality
pre-check and the `maxOccurs == 0` postprocessing (facet.py lines
278-300): direct references unioned with inherited references, fail
`NOVALUE` when empty, then the identification check (`value`) and the
owning-system check (`system`). -/
def Classification.body (f : Classification) (m : Model) (inst : Element) :
    Except PyErr (Bool × Option Reason) := do
  let references :=
    inst.classRefs.map (fun r => (r.identification, r.systemName))
      ++ inst.classRefs.flatMap (fun r => r.inherited)
  let is_pass := !references.isEmpty
  let reason : Option Reason := if is_pass then none else some ⟨"NOVALUE", none⟩
  let st2 ←
    if is_pass ∧ isTruthyF f.value then do
      let values := references.map Prod.fst
      let b ← allEqList f.value values
      pure (b, if b then reason else some ⟨"VALUE", some (.VList values)⟩)
    else pure (is_pass, reason)
  if st2.1 ∧ isTruthyF f.system then do
    let systems := references.map Prod.snd
    let b ← allEqList f.system systems
    pure (b, if b then st2.2 else some ⟨"SYSTEM", some (.VList systems)⟩)
  else pure st2

/-- Embedding of `Classification.__call__` (facet.py lines 274-304). -/
def Classification.call (f : Classification) (m : Model) (inst : Element) :
    Except PyErr Result :=
  if f.minOccurs = some 0 ∧ f.maxOccurs ≠ some 0 then .ok ⟨true, none⟩
  else
    (Classification.body f m inst).map (fun pr =>
      if f.maxOccurs = some 0 then ⟨!pr.1, some prohibitedReason⟩ else ⟨pr.1, pr.2⟩)

/-- The upward walk of the aggregation/nesting chain of
`PartOf.__call__` (facet.py lines 331-338 and 369-376): collect each
parent's declared type, stopping when the upper-cased type equals the
`entity` parameter.  The walk is fuelled by the model size; Python
does not terminate on cyclic parent chains, which well-formed models
exclude. -/
def chainWalk (m : Model) (entityP : FParam) (next : Model → Element → Option Element) :
    Nat → Option Element → List PyVal → Except PyErr (Bool × List PyVal)
  | 0, _, anc => .ok (false, anc.reverse)
  | _, none, anc => .ok (false, anc.reverse)
  | fuel + 1, some parent, anc => do
    let anc2 := PyVal.VStr parent.is_a :: anc
    let b ← fparamEqVal entityP (.VStr (upperStr parent.is_a))
    if b then .ok (true, anc2.reverse)
    else chainWalk m entityP next fuel (next m parent) anc2

/-- The body of `PartOf.__call__` between the cardinality pre-check
and the `maxOccurs == 0` postprocessing (facet.py lines 324-378).
The local `is_pass` is only assigned inside the four recognized
relation branches; for any other relation it stays unbound
(`none`), faithfully modelling the `UnboundLocalError` raised when
the postprocessing reads it. -/
def PartOf.body (f : PartOf) (m : Model) (inst : Element) :
    Except PyErr (Option Bool × Option Reason) := do
  if f.relation = "IfcRelAggregates" then do
    let aggregate := get_aggregate m inst
    let is_pass := aggregate.isSome
    let reason : Option Reason := if is_pass then none else some ⟨"RELATION", none⟩
    if is_pass ∧ isTruthyF f.entity then do
      let walk ← chainWalk m f.entity get_aggregate (m.elements.length + 1) aggregate []
      pure (some walk.1,
        if walk.1 then reason else some ⟨"ENTITY", some (.VList walk.2)⟩)
    else pure (some is_pass, reason)
  else if f.relation = "IfcRelAssignsToGroup" then do
    let group := (inst.hasAssignments.find? (fun r => r.isGroupAssignment)).map
      (fun r => r.relatingGroupIsA)
    match group with
    | none => pure (some false, some ⟨"NOVALUE", none⟩)
    | some g =>
      if isTruthyF f.entity then do
        let b ← fparamEqVal f.entity (.VStr (upperStr g))
        if b then pure (some true, none)
        else pure (some false, some ⟨"ENTITY", some (.VStr (upperStr g))⟩)
      else pure (some true, none)
  else if f.relation = "IfcRelContainedInSpatialStructure" then do
    let container := get_container m inst
    match container with
    | none => pure (some false, some ⟨"RELATION", none⟩)
    | some c =>
      if isTruthyF f.entity then do
        let b ← fparamEqVal f.entity (.VStr (upperStr c.is_a))
        if b then pure (some true, none)
        else pure (some false, some ⟨"ENTITY", some (.VStr (upperStr c.is_a))⟩)
      else pure (some true, none)
  else if f.relation = "IfcRelNests" then do
    let nest := get_nested_whole m inst
    let is_pass := nest.isSome
    let reason : Option Reason := if is_pass then none else some ⟨"NOVALUE", none⟩
    if is_pass ∧ isTruthyF f.entity then do
      let walk ← chainWalk m f.entity get_nested_whole (m.elements.length + 1) nest []
      pure (some walk.1,
        if walk.1 then reason else some ⟨"ENTITY", some (.VList walk.2)⟩)
    else pure (some is_pass, reason)
  else
    pure (none, none)

/-- Embedding of `PartOf.__call__` (facet.py lines 320-382): reading
the unbound `is_pass` in the postprocessing raises
`UnboundLocalError`. -/
def PartOf.call (f : PartOf) (m : Model) (inst : Element) : Except PyErr Result :=
  if f.minOccurs = some 0 ∧ f.maxOccurs ≠ some 0 then .ok ⟨true, none⟩
  else
    (PartOf.body f m inst).bind (fun pr =>
      match pr.1 with
      | none => .error (.unboundLocal "is_pass")
      | some p =>
        .ok (if f.maxOccurs = some 0 then ⟨!p, some prohibitedReason⟩ else ⟨p, pr.2⟩))

/-- The candidate match loop of `Material.__call__` (facet.py lines
561-565): first value equal to the parameter wins. -/
def anyEqParam (p : FParam) : List PyVal → Except PyErr Bool
  | [] => .ok false
  | v :: vs => do
    let b ← fparamEqVal p v
    if b then .ok true else anyEqParam p vs

/-- The body of `Material.__call__` between the cardinality pre-check
and the `maxOccurs == 0` postprocessing (facet.py lines 533-568):
fail `NOVALUE` without a material; with a `value` parameter, collect
the candidate names/categories of the resolved material definition
(the local `values` is only assigned for the five recognized material
kinds — an unrecognized kind leaves it unbound, raising
`UnboundLocalError` at the following loop) and pass iff some
candidate equals `value`.  (Python collects candidates in a set; the
embedding keeps the list, which `any`-style matching cannot
distinguish.) -/
def Material.body (f : Material) (m : Model) (inst : Element) :
    Except PyErr (Bool × Option Reason) := do
  let material := inst.material
  let is_pass := material.isSome
  let reason : Option Reason := if is_pass then none else some ⟨"NOVALUE", none⟩
  if is_pass ∧ isTruthyF f.value then do
    let values ←
      match material with
      | some (.mat name category) => pure [name, category]
      | some (.matList mats) => pure (mats.flatMap (fun nc => [nc.1, nc.2]))
      | some (.layerSet lsName layers) =>
        pure (lsName :: layers.flatMap (fun l =>
          [l.name, l.category, l.materialName, l.materialCategory]))
      | some (.profileSet name profiles) =>
        pure (name :: profiles.flatMap (fun l =>
          [l.name, l.category, l.materialName, l.materialCategory]))
      | some (.constituentSet name constituents) =>
        pure (name :: constituents.flatMap (fun l =>
          [l.name, l.category, l.materialName, l.materialCategory]))
      | some (.otherKind _) => .error (.unboundLocal "values")
      | none => .error (.unboundLocal "values")
    let b ← anyEqParam f.value values
    pure (b, if b then reason else some ⟨"VALUE", some (.VList values)⟩)
  else pure (is_pass, reason)

/-- Embedding of `Material.__call__` (facet.py lines 529-572). -/
def Material.call (f : Material) (m : Model) (inst : Element) : Except PyErr Result :=
  if f.minOccurs = some 0 ∧ f.maxOccurs ≠ some 0 then .ok ⟨true, none⟩
  else
    (Material.body f m inst).map (fun pr =>
      if f.maxOccurs = some 0 then ⟨!pr.1, some prohibitedReason⟩ else ⟨pr.1, pr.2⟩)

/-- The property selection of `Property.__call__` for one property set
(facet.py lines 442-452): for a string name, take the property unless
it is an `UNKNOWN` logical (probed through the property-set entity's
`HasProperties`, where a missing match raises `IndexError` and a
`None` nominal value raises `AttributeError`) or it is `None`/empty;
for a non-string name, all matching entries of the mapping. -/
def Property.selectProps (nameP : FParam) (pset : Pset) :
    Except PyErr (List (String × PyVal)) := do
  match nameP with
  | .val (.VStr nm) =>
    let propV := (pset.props.lookup nm).getD .VNone
    let isLogicalUnknown ←
      if pyEq propV (.VStr "UNKNOWN") then do
        let _ ←
          match pset.props.lookup "id" with
          | some x => pure x
          | none => .error (.keyError "id")
        let head ←
          match pset.hasProperties.filter (fun p => p.name = nm) with
          | [] => .error .indexError
          | p :: _ => pure p
        let nv ←
          match head.nominalValue with
          | none => .error (.attributeError "is_a")
          | some tv => pure tv
        pure (nv.1 == "IfcLogical")
      else pure false
    if isLogicalUnknown then pure []
    else if ¬ isNoneV propV ∧ ¬ pyEq propV (.VStr "") then pure [(nm, propV)]
    else pure []
  | p => filterExc (fun kv => fparamEqVal p (.VStr kv.1)) pset.props

/-- The measure/unit loop of `Property.__call__` (facet.py lines
459-483): for each single-value property entity selected by name,
fail `MEASURE` when its declared value-type tag differs from the
`measure` parameter, and convert its value to SI when it carries a
unit. -/
def Property.measureLoop (measureP : FParam) (st : Bool × Option Reason) :
    List (String × PyVal) → List PropEntity →
    Except PyErr (Bool × Option Reason × List (String × PyVal))
  | propsSel, [] => pure (st.1, st.2, propsSel)
  | propsSel, pe :: rest =>
    match pe.nominalValue with
    | none => Property.measureLoop measureP st propsSel rest
    | some tv =>
      if (propsSel.lookup pe.name).isNone ∨ ¬ pe.isSingleValue then
        Property.measureLoop measureP st propsSel rest
      else do
        let data_type := tv.1
        let mEq ← fparamEqVal measureP (.VStr data_type)
        if ¬ mEq then
          pure (false, some ⟨"MEASURE", some (.VStr data_type)⟩, propsSel)
        else
          let propsSel2 :=
            match pe.unitFactor with
            | some fac =>
              propsSel.map (fun kv =>
                if kv.1 = pe.name then (kv.1, convertSI tv.2 fac) else kv)
            | none => propsSel
          Property.measureLoop measureP st propsSel2 rest

/-- The value-comparison loop of `Property.__call__` (facet.py lines
488-509): same comparison rules as the Attribute facet, without the
structured-reference case. -/
def Property.valueLoop (fval : FParam) : List PyVal → Except PyErr (Bool × Option Reason)
  | [] => .ok (true, none)
  | v :: vs =>
    match fval, v with
    | .val (.VStr s), .VStr t =>
      if t ≠ s then .ok (false, some ⟨"VALUE", some v⟩)
      else Property.valueLoop fval vs
    | .val (.VStr s), _ => do
      let cast ← castToValue (.VStr s) v
      match v, cast with
      | .VFloat q, some (.VFloat c) =>
        if pfLt q (pfMul c (pfSub (pfOfInt 1) pfMicro))
            ∨ pfLt (pfMul c (pfAdd (pfOfInt 1) pfMicro)) q then
          .ok (false, some ⟨"VALUE", some v⟩)
        else Property.valueLoop fval vs
      | _, _ =>
        if ¬ pyEq v (optToPy cast) then .ok (false, some ⟨"VALUE", some v⟩)
        else Property.valueLoop fval vs
    | _, _ => do
      let b ← fparamEqVal fval v
      if ¬ b then .ok (false, some ⟨"VALUE", some v⟩)
      else Property.valueLoop fval vs

/-- The per-property-set loop of `Property.__call__` (facet.py lines
441-509), threading the running `is_pass`/`reason` state exactly as
the source does: an empty selection breaks with `NOVALUE`; a false
`is_pass` after the measure loop breaks; a value-comparison failure
does not break the outer loop. -/
def Property.psetLoop (nameP valueP measureP : FParam) (st : Bool × Option Reason) :
    List Pset → Except PyErr (Bool × Option Reason)
  | [] => pure st
  | pset :: rest => do
    let propsSel ← Property.selectProps nameP pset
    if propsSel.isEmpty then pure (false, some ⟨"NOVALUE", none⟩)
    else do
      let ms ← Property.measureLoop measureP st propsSel pset.hasProperties
      if ¬ ms.1 then pure (ms.1, ms.2.1)
      else do
        let st3 ←
          if isTruthyF valueP then Property.valueLoop valueP (ms.2.2.map Prod.snd)
          else pure (ms.1, ms.2.1)
        Property.psetLoop nameP valueP measureP st3 rest

/-- The body of `Property.__call__` between the cardinality pre-check
and the `maxOccurs == 0` postprocessing (facet.py lines 425-509):
select the matching property set(s) (a string `propertySet` selects by
exact name, kept only when its mapping is truthy; otherwise by
parameter equality on names), fail `NOPSET` when none, then run the
per-set loop. -/
def Property.body (f : Property) (m : Model) (inst : Element) :
    Except PyErr (Bool × Option Reason) := do
  let all_psets := inst.psets
  let psets ←
    match f.propertySet with
    | .val (.VStr ps) =>
      (match all_psets.find? (fun p => p.name = ps) with
       | some p => pure (if p.props.isEmpty then [] else [p])
       | none => pure [])
    | p => filterExc (fun ps => fparamEqVal p (.VStr ps.name)) all_psets
  if psets.isEmpty then pure (false, some ⟨"NOPSET", none⟩)
  else Property.psetLoop f.name f.value f.measure (true, none) psets

/-- Embedding of `Property.__call__` (facet.py lines 421-513). -/
def Property.call (f : Property) (m : Model) (inst : Element) : Except PyErr Result :=
  if f.minOccurs = some 0 ∧ f.maxOccurs ≠ some 0 then .ok ⟨true, none⟩
  else
    (Property.body f m inst).map (fun pr =>
      if f.maxOccurs = some 0 then ⟨!pr.1, some prohibitedReason⟩ else ⟨pr.1, pr.2⟩)

/-- The closed union of the six facet variants. -/
inductive Facet where
  | entity (f : Entity)
  | attr (f : Attribute)
  | classification (f : Classification)
  | partOf (f : PartOf)
  | prop (f : Property)
  | material (f : Material)
deriving DecidableEq

/-- Dispatch of `facet(element)` over the six variants. -/
def Facet.call : Facet → Model → Element → Except PyErr Result
  | .entity f, m, inst => Entity.call f m inst
  | .attr f, m, inst => Attribute.call f m inst
  | .classification f, m, inst => Classification.call f m inst
  | .partOf f, m, inst => PartOf.call f m inst
  | .prop f, m, inst => Property.call f m inst
  | .material f, m, inst => Material.call f m inst

/-- The `minOccurs` parameter of a facet: `none` when the variant has
no such parameter (Entity), otherwise the held optional integer. -/
def Facet.minOccursQ : Facet → Option (Option Int)
  | .entity _ => none
  | .attr f => some f.minOccurs
  | .classification f => some f.minOccurs
  | .partOf f => some f.minOccurs
  | .prop f => some f.minOccurs
  | .material f => some f.minOccurs

/-- The `maxOccurs` parameter of a facet (see `Facet.minOccursQ`). -/
def Facet.maxOccursQ : Facet → Option (Option Int)
  | .entity _ => none
  | .attr f => some f.maxOccurs
  | .classification f => some f.maxOccurs
  | .partOf f => some f.maxOccurs
  | .prop f => some f.maxOccurs
  | .material f => some f.maxOccurs

/-- Replace the cardinality parameters of a facet (identity on
Entity, which has none). -/
def Facet.setCard : Facet → Option Int → Option Int → Facet
  | .entity f, _, _ => .entity f
  | .attr f, a, b => .attr { f with minOccurs := a, maxOccurs := b }
  | .classification f, a, b => .classification { f with minOccurs := a, maxOccurs := b }
  | .partOf f, a, b => .partOf { f with minOccurs := a, maxOccurs := b }
  | .prop f, a, b => .prop { f with minOccurs := a, maxOccurs := b }
  | .material f, a, b => .material { f with minOccurs := a, maxOccurs := b }

/-- Does the variant use the base-class `Facet.filter` (facet.py lines
72-73)?  Entity and Classification override it. -/
def Facet.usesBaseFilter : Facet → Bool
  | .attr _ => true
  | .partOf _ => true
  | .prop _ => true
  | .material _ => true
  | .entity _ => false
  | .classification _ => false

/-- The base-class filter comprehension `[e for e in elements if
self(e)]`: the elements whose evaluation passes, in input order. -/
def filterPass (g : Element → Except PyErr Result) : List Element → Except PyErr (List Element)
  | [] => pure []
  | e :: es => do
    let r ← g e
    let rest ← filterPass g es
    pure (if r.is_pass then e :: rest else rest)

/-- Embedding of `Facet.filter(ifc_file, elements)` across the
variants (facet.py lines 72-73, 123-132, 271-272): the base class
returns the passing elements in input order; Entity selects by
declared type through `by_type` (for a non-string name, through the
schema type list), narrowing by evaluation when `predefinedType` is
set; Classification's override is a bare `pass`, returning `None`
(modelled as `none`). -/
def Facet.filter (f : Facet) (m : Model) (elements : List Element) :
    Except PyErr (Option (List Element)) :=
  match f with
  | .classification _ => .ok none
  | .entity ef =>
    (match ef.name with
     | .val (.VStr nm) =>
       let results := by_type m nm
       if isTruthyF ef.predefinedType then
         (filterPass (Facet.call f m) results).map some
       else .ok (some results)
     | p => do
       let ifc_classes ← filterExc (fun t => fparamEqVal p (.VStr (upperStr t))) m.typeNames
       let results := ifc_classes.flatMap (by_type m)
       if isTruthyF ef.predefinedType then
         (filterPass (Facet.call f m) results).map some
       else pure (some results))
  | g => (filterPass (Facet.call g m) elements).map some

/-- A minimal wall element with no attributes, relations, material,
property sets or classifications. -/
def elemBase : Element :=
  { id := 1, is_a := "IfcWall", attributes := [], attrTypes := [],
    inverseAttributeNames := [], typeRefId := none, predefinedType := .VNone,
    aggregateParentId := none, containerId := none, hasAssignments := [],
    nestsParentIds := [], material := none, psets := [], classRefs := [] }

/-- A one-element model. -/
def modelBase : Model :=
  { elements := [elemBase], typeNames := ["IfcWall"] }

/-- The absent parameter value (Python `None`). -/
def pNone : FParam := .val .VNone

/-- An element whose `Name` attribute is the string `"Bar"`. -/
def elemNameBar : Element :=
  { elemBase with
    id := 2, attributes := [("Name", .VStr "Bar")],
    attrTypes := [("Name", "STRING")] }

/-- Attribute facet `name="Name", value="Foo"` with `minOccurs=0` and
`maxOccurs=0`. -/
def attrProhibitedOpt : Attribute :=
  { name := .val (.VStr "Name"), value := .val (.VStr "Foo"),
    minOccurs := some 0, maxOccurs := some 0, instructions := pNone }

/-- The same facet with `maxOccurs` unset (Python `None`). -/
def attrNoMax : Attribute :=
  { attrProhibitedOpt with maxOccurs := none }

/-- Attribute facet `name="Name", value="Foo"` with `maxOccurs=0` and
`minOccurs` unset. -/
def attrProhibitedW : Attribute :=
  { name := .val (.VStr "Name"), value := .val (.VStr "Foo"),
    minOccurs := none, maxOccurs := some 0, instructions := pNone }

/-- Attribute facet `name="Name"` with `minOccurs=0` and `maxOccurs`
unset (the optional case). -/
def attrOptionalW : Attribute :=
  { name := .val (.VStr "Name"), value := pNone,
    minOccurs := some 0, maxOccurs := none, instructions := pNone }

/-- Attribute facet `name="Name"` with no value restriction and no
cardinalities (used as a base-filter witness). -/
def attrFilterW : Attribute :=
  { name := .val (.VStr "Name"), value := pNone,
    minOccurs := none, maxOccurs := none, instructions := pNone }

/-- Attribute facet expecting the numeric literal `"-100"` on
attribute `X`. -/
def attrNegValue : Attribute :=
  { name := .val (.VStr "X"), value := .val (.VStr "-100"),
    minOccurs := none, maxOccurs := none, instructions := pNone }

/-- An element whose `X` attribute is the float `-100.0`. -/
def elemNegX : Element :=
  { elemBase with
    id := 3, attributes := [("X", .VFloat ⟨-100, 1⟩)],
    attrTypes := [("X", "DOUBLE")] }

/-- PartOf facet whose relation is none of the four recognized
relationship kinds. -/
def partOfUnknownRel : PartOf :=
  { entity := pNone, relation := "IfcRelVoidsElement",
    minOccurs := none, maxOccurs := none, instructions := pNone }

/-- Material facet expecting the value `"Steel"`. -/
def materialSteel : Material :=
  { value := .val (.VStr "Steel"), uri := pNone,
    minOccurs := none, maxOccurs := none, instructions := pNone }

/-- An element whose resolved material is none of the five recognized
material kinds. -/
def elemOtherMaterial : Element :=
  { elemBase with id := 4, material := some (.otherKind "IfcMaterialConstituent") }

/-- A default Classification facet (no parameters set). -/
def classificationDefault : Classification :=
  { value := pNone, system := pNone, uri := pNone,
    minOccurs := none, maxOccurs := none, instructions := pNone }

/-- An Entity facet selecting the declared type `IfcWall`, with no
predefined type. -/
def entityWallW : Entity :=
  { name := .val (.VStr "IfcWall"), predefinedType := pNone, instructions := pNone }

/-- An enumeration restriction with base `bool` and the single option
`"TRUE"`. -/
def restrEnumBoolTRUE : Restriction :=
  ⟨"enumeration", "bool", .VList [.VStr "TRUE"]⟩

/-- The same restriction after one match: options lowercased in
place. -/
def restrEnumBoolLower : Restriction :=
  ⟨"enumeration", "bool", .VList [.VStr "true"]⟩

/-- A length restriction satisfied exactly by length-zero candidates. -/
def restrLenZero : Restriction :=
  ⟨"length", "integer", .VList [.VStr "==0"]⟩

/-- A well-formed bounds fragment (one `minInclusive` entry). -/
def boundsFragC5 : PyVal :=
  .VDict [("@base", .VStr "xs:integer"), ("minInclusive", .VDict [("@value", .VStr "5")])]

/-- A well-formed enumeration fragment with one literal. -/
def enumFragC5 : PyVal :=
  .VDict [("@base", .VStr "xs:string"),
    ("enumeration", .VList [.VDict [("@value", .VStr "A")]])]

/-- The restriction obtained by parsing `enumFragC5`. -/
def restrEnumParsedC5 : Restriction :=
  ⟨"enumeration", "string", .VList [.VStr "A"]⟩

/-- The fragment emitted by serializing `restrEnumParsedC5`: the
enumeration key comes back `xs:`-prefixed. -/
def enumOutC5 : PyVal :=
  .VDict [("@base", .VStr "xs:string"),
    ("xs:enumeration", .VList [.VDict [("@value", .VStr "A")]])]

/-- `Char.ofNat` evaluates to the given valid code point. -/
theorem charOfNat_toNat (n : Nat) (hv : n.isValidChar) : (Char.ofNat n).toNat = n := by
  unfold Char.ofNat
  rw [dif_pos hv]
  rfl

/-- ASCII lowercasing is idempotent on characters. -/
theorem lowerChar_idem (c : Char) : lowerChar (lowerChar c) = lowerChar c := by
  unfold lowerChar
  by_cases h : 65 ≤ c.toNat ∧ c.toNat ≤ 90
  · rw [if_pos h]
    have hv : (c.toNat + 32).isValidChar := by left; omega
    rw [if_neg]
    rw [charOfNat_toNat _ hv]
    omega
  · rw [if_neg h, if_neg h]

/-- ASCII lowercasing is idempotent on strings. -/
theorem lowerStr_idem (s : String) : lowerStr (lowerStr s) = lowerStr s := by
  unfold lowerStr
  simp [List.map_map, Function.comp_def, lowerChar_idem]


/-- Monadic bind on an `ok` value reduces to application. -/
@[simp] theorem exceptBind_ok {e a b : Type} (x : a) (f : a → Except e b) :
    (Except.ok x : Except e a) >>= f = f x := rfl

/-- Monadic bind on an `error` value propagates the error. -/
@[simp] theorem exceptBind_error {e a b : Type} (err : e) (f : a → Except e b) :
    (Except.error err : Except e a) >>= f = .error err := rfl

/-- `Except.map` on an `ok` value. -/
@[simp] theorem exceptMap_ok {e a b : Type} (x : a) (f : a → b) :
    (Except.ok x : Except e a).map f = .ok (f x) := rfl

/-- `Except.map` on an `error` value. -/
@[simp] theorem exceptMap_error {e a b : Type} (err : e) (f : a → b) :
    (Except.error err : Except e a).map f = .error err := rfl

/-- `Except.bind` applied to an `ok` value. -/
@[simp] theorem exceptBindFn_ok {e a b : Type} (x : a) (f : a → Except e b) :
    Except.bind (Except.ok x : Except e a) f = f x := rfl

/-- `Except.bind` applied to an `error` value. -/
@[simp] theorem exceptBindFn_error {e a b : Type} (err : e) (f : a → Except e b) :
    Except.bind (Except.error err : Except e a) f = .error err := rfl

/-- `pure` in the `Except` monad is `ok`. -/
@[simp] theorem exceptPure_eq {e a : Type} (x : a) :
    (pure x : Except e a) = .ok x := rfl

/-- Lowercasing a value twice gives the single-pass result: the
output list of a successful `lowerVal` traversal is a fixed point. -/
theorem mapExc_lowerVal_idem (xs ys : List PyVal) (h : mapExc lowerVal xs = .ok ys) :
    mapExc lowerVal ys = .ok ys := by
  induction xs generalizing ys with
  | nil =>
    simp [mapExc] at h
    subst h
    rfl
  | cons x xs ih =>
    cases hx : lowerVal x with
    | error e => simp [mapExc, hx, Except.bind] at h
    | ok y =>
      cases hxs : mapExc lowerVal xs with
      | error e => simp [mapExc, hx, hxs, Except.bind] at h
      | ok ys2 =>
        simp [mapExc, hx, hxs, Except.bind] at h
        have hy : lowerVal y = .ok y := by
          cases x with
          | VStr s =>
            simp [lowerVal] at hx
            simp [← hx, lowerVal, lowerStr_idem]
          | VNone => simp [lowerVal] at hx
          | VBool b => simp [lowerVal] at hx
          | VInt n => simp [lowerVal] at hx
          | VFloat q => simp [lowerVal] at hx
          | VList l => simp [lowerVal] at hx
          | VTuple l => simp [lowerVal] at hx
          | VDict l => simp [lowerVal] at hx
          | VEntity k => simp [lowerVal] at hx
        simp [← h, mapExc, hy, ih ys2 hxs, Except.bind]

/-- The Attribute body never reads the cardinality parameters. -/
theorem attrBody_card (f : Attribute) (a b : Option Int) (m : Model) (inst : Element) :
    Attribute.body { f with minOccurs := a, maxOccurs := b } m inst =
      Attribute.body f m inst := by
  cases f
  rfl

/-- The Classification body never reads the cardinality parameters. -/
theorem classBody_card (f : Classification) (a b : Option Int) (m : Model) (inst : Element) :
    Classification.body { f with minOccurs := a, maxOccurs := b } m inst =
      Classification.body f m inst := by
  cases f
  rfl

/-- The PartOf body never reads the cardinality parameters. -/
theorem partOfBody_card (f : PartOf) (a b : Option Int) (m : Model) (inst : Element) :
    PartOf.body { f with minOccurs := a, maxOccurs := b } m inst =
      PartOf.body f m inst := by
  cases f
  rfl

/-- The Property body never reads the cardinality parameters. -/
theorem propBody_card (f : Property) (a b : Option Int) (m : Model) (inst : Element) :
    Property.body { f with minOccurs := a, maxOccurs := b } m inst =
      Property.body f m inst := by
  cases f
  rfl

/-- The Material body never reads the cardinality parameters. -/
theorem materialBody_card (f : Material) (a b : Option Int) (m : Model) (inst : Element) :
    Material.body { f with minOccurs := a, maxOccurs := b } m inst =
      Material.body f m inst := by
  cases f
  rfl

/-- C1: the claim that facet evaluation never raises fails on the
code: a PartOf facet whose relation is none of the four recognized
relationship kinds leaves the local `is_pass` unassigned and the
return statement raises `UnboundLocalError`; likewise a Material
facet whose resolved material is none of the five recognized material
kinds leaves `values` unassigned and the candidate loop raises. -/
theorem claim_C1_code_bug :
    Facet.call (.partOf partOfUnknownRel) modelBase elemBase =
      .error (.unboundLocal "is_pass") ∧
    Facet.call (.material materialSteel) modelBase elemOtherMaterial =
      .error (.unboundLocal "values") := by
  constructor
  · rfl
  · rfl

/-- C2, counterexample: with `minOccurs=0` and `maxOccurs=0`, the
returned `is_pass` is not the negation of the outcome the same facet
produces without `maxOccurs == 0` — that facet passes unconditionally
through the optional-cardinality shortcut, so the claimed inversion
predicts `False`, while the code returns `True` (the fail of the
underlying check, inverted). -/
theorem claim_C2_counterexample :
    ¬ (Facet.call (.attr attrProhibitedOpt) modelBase elemNameBar =
       (Facet.call (.attr attrNoMax) modelBase elemNameBar).map
         (fun r => ⟨!r.is_pass, some prohibitedReason⟩)) := by
  decide

/-- C2, amended: `maxOccurs == 0` inverts the underlying pass/fail of
the facet body — the outcome the same facet produces with
`minOccurs=1` and `maxOccurs` unset — and the reason is always
`PROHIBITED`; this only coincides with negating the outcome of the
facet without `maxOccurs == 0` when `minOccurs` is not 0. -/
theorem claim_C2_amended (f : Facet) (m : Model) (inst : Element)
    (h : f.maxOccursQ = some (some 0)) :
    Facet.call f m inst =
      (Facet.call (f.setCard (some 1) none) m inst).map
        (fun r => ⟨!r.is_pass, some prohibitedReason⟩) := by
  cases f with
  | entity g => simp [Facet.maxOccursQ] at h
  | attr g =>
    simp [Facet.maxOccursQ] at h
    simp only [Facet.call, Facet.setCard, Attribute.call, h, attrBody_card]
    cases hb : Attribute.body g m inst <;> simp
  | classification g =>
    simp [Facet.maxOccursQ] at h
    simp only [Facet.call, Facet.setCard, Classification.call, h, classBody_card]
    cases hb : Classification.body g m inst <;> simp
  | partOf g =>
    simp [Facet.maxOccursQ] at h
    simp only [Facet.call, Facet.setCard, PartOf.call, h, partOfBody_card]
    cases hb : PartOf.body g m inst with
    | error e => simp
    | ok pr =>
      obtain ⟨po, rsn⟩ := pr
      cases po <;> simp
  | prop g =>
    simp [Facet.maxOccursQ] at h
    simp only [Facet.call, Facet.setCard, Property.call, h, propBody_card]
    cases hb : Property.body g m inst <;> simp
  | material g =>
    simp [Facet.maxOccursQ] at h
    simp only [Facet.call, Facet.setCard, Material.call, h, materialBody_card]
    cases hb : Material.body g m inst <;> simp

/-- C2, witness: the amended inversion at a concrete prohibited
Attribute facet. -/
theorem claim_C2_witness :
    Facet.call (.attr attrProhibitedW) modelBase elemNameBar =
      (Facet.call ((Facet.attr attrProhibitedW).setCard (some 1) none) modelBase
        elemNameBar).map (fun r => ⟨!r.is_pass, some prohibitedReason⟩) :=
  claim_C2_amended (.attr attrProhibitedW) modelBase elemNameBar rfl

/-- C3: for every facet variant carrying cardinalities, `minOccurs ==
0` with `maxOccurs != 0` returns a passing Result
unconditionally, without inspecting the element (Entity, which has no
cardinality parameters, cannot satisfy the hypothesis). -/
theorem claim_C3 (f : Facet) (m : Model) (inst : Element)
    (h1 : f.minOccursQ = some (some 0)) (h2 : f.maxOccursQ ≠ some (some 0)) :
    Facet.call f m inst = .ok ⟨true, none⟩ := by
  cases f with
  | entity g => simp [Facet.minOccursQ] at h1
  | attr g =>
    simp [Facet.minOccursQ] at h1
    simp [Facet.maxOccursQ] at h2
    simp [Facet.call, Attribute.call, h1, h2]
  | classification g =>
    simp [Facet.minOccursQ] at h1
    simp [Facet.maxOccursQ] at h2
    simp [Facet.call, Classification.call, h1, h2]
  | partOf g =>
    simp [Facet.minOccursQ] at h1
    simp [Facet.maxOccursQ] at h2
    simp [Facet.call, PartOf.call, h1, h2]
  | prop g =>
    simp [Facet.minOccursQ] at h1
    simp [Facet.maxOccursQ] at h2
    simp [Facet.call, Property.call, h1, h2]
  | material g =>
    simp [Facet.minOccursQ] at h1
    simp [Facet.maxOccursQ] at h2
    simp [Facet.call, Material.call, h1, h2]

/-- C3, witness: the optional shortcut at a concrete Attribute facet
and element. -/
theorem claim_C3_witness :
    Facet.call (.attr attrOptionalW) modelBase elemBase = .ok ⟨true, none⟩ :=
  claim_C3 (.attr attrOptionalW) modelBase elemBase rfl (by decide)

/-- C4: the claim that candidates within the relative tolerance pass
for every cast expected value fails on the code for negative
expectations: the interval test `value < cast*(1-1e-6) or value >
cast*(1+1e-6)` flips for negative `cast`, so the candidate `-100.0`
— at distance 0, well within tolerance of the expected `"-100"` —
is rejected with a `VALUE` reason. -/
theorem claim_C4_code_bug :
    |pfVal ⟨-100, 1⟩ - pfVal ⟨-100, 1⟩| ≤ (1 / 1000000) * |pfVal ⟨-100, 1⟩| ∧
    Facet.call (.attr attrNegValue) modelBase elemNegX =
      .ok ⟨false, some ⟨"VALUE", some (.VFloat ⟨-100, 1⟩)⟩⟩ := by
  constructor
  · norm_num [pfVal]
  · decide

/-- C5: the parse/serialize round trip fails on the code: parsing a
well-formed bounds fragment raises `AttributeError` (the parser
assigns a dict to `options` and immediately calls `.append` on it),
and even for a kind that parses (enumeration), `asdict` emits
`xs:`-prefixed keys the parser does not read, so the output differs
from the input fragment. -/
theorem claim_C5_code_bug :
    Restriction.parse Restriction.default boundsFragC5 = .error (.attributeError "append") ∧
    Restriction.parse Restriction.default enumFragC5 = .ok restrEnumParsedC5 ∧
    Restriction.asdict restrEnumParsedC5 = .ok enumOutC5 ∧
    enumOutC5 ≠ enumFragC5 := by
  refine ⟨rfl, rfl, rfl, by decide⟩

/-- C6, counterexample: constructing a Restriction of kind "length"
with options of mismatched shape (a dict, where length requires a
list of comparison strings) raises nothing: the constructor body is
skipped entirely, so construction silently succeeds with no attribute
assigned. -/
theorem claim_C6_counterexample :
    Restriction.init (.VDict []) "length" "string" = .ok .uninitialized := rfl

/-- C6, amended: the shape validation only covers the kinds
enumeration, bounds and pattern — those fail construction with an
error on a shape mismatch; the kind "length" (like any other
unlisted kind) skips the constructor body, silently succeeding with
the attributes unassigned, whatever the options. -/
theorem claim_C6_amended (options : PyVal) (base : String) :
    (isListV options = false →
      Restriction.init options "enumeration" base =
        .error (.exception "Options were not properly defined.")) ∧
    (isDictV options = false →
      Restriction.init options "bounds" base =
        .error (.exception "Options were not properly defined.")) ∧
    (isStrV options = false →
      Restriction.init options "pattern" base =
        .error (.exception "Options were not properly defined.")) ∧
    Restriction.init options "length" base = .ok .uninitialized := by
  refine ⟨fun h => ?_, fun h => ?_, fun h => ?_, ?_⟩
  · simp [Restriction.init, h]
  · simp [Restriction.init, h]
  · simp [Restriction.init, h]
  · simp [Restriction.init]

/-- C6, witness: the amended statement at concrete mismatched
options. -/
theorem claim_C6_witness :
    Restriction.init (.VInt 3) "enumeration" "string" =
      .error (.exception "Options were not properly defined.") ∧
    Restriction.init (.VInt 3) "length" "string" = .ok .uninitialized :=
  ⟨(claim_C6_amended (.VInt 3) "string").1 rfl,
   (claim_C6_amended (.VInt 3) "string").2.2.2⟩

/-- C7, counterexample: the claim that only the literals
`"TRUE"`/`"FALSE"` produce a boolean fails on the code — for a
boolean-typed target, any other literal falls through to the builtin
`bool` constructor, so `"yes"` yields `True`; and the claim that the
function never raises for every target fails for a `None`-typed
target, whose type name is not a builtin constructor, raising
`KeyError`. -/
theorem claim_C7_counterexample :
    castToValue (.VStr "yes") (.VBool true) = .ok (some (.VBool true)) ∧
    ("yes" : String) ≠ "TRUE" ∧ ("yes" : String) ≠ "FALSE" ∧
    castToValue (.VStr "1") .VNone = .error (.keyError "NoneType") := by
  refine ⟨rfl, by decide, by decide, rfl⟩

/-- C7, amended: for a string literal, `cast_to_value` yields a float
(via the float grammar) for integer-typed and float-typed targets
(`.ok none` on a failed parse, never an exception); for boolean-typed
targets it yields `True` for `"TRUE"`, `False` for `"FALSE"`, and the
truthiness of the literal otherwise; for string-typed targets the
literal itself; and for a `None`-typed target it raises `KeyError`
instead of returning an absent value. -/
theorem claim_C7_amended (s : String) :
    (∀ n : Int, castToValue (.VStr s) (.VInt n) =
      .ok ((floatOfString s).map PyVal.VFloat)) ∧
    (∀ b : Bool, castToValue (.VStr s) (.VBool b) =
      .ok (some (.VBool (if s = "TRUE" then true
                         else if s = "FALSE" then false
                         else s != "")))) ∧
    (∀ t : String, castToValue (.VStr s) (.VStr t) = .ok (some (.VStr s))) ∧
    (∀ x : PyFloat, castToValue (.VStr s) (.VFloat x) =
      .ok ((floatOfString s).map PyVal.VFloat)) ∧
    castToValue (.VStr s) .VNone = .error (.keyError "NoneType") := by
  refine ⟨fun n => ?_, fun b => ?_, fun t => ?_, fun x => ?_, rfl⟩
  · simp only [castToValue, typeName, floatCtor]
    cases floatOfString s <;> simp
  · by_cases h1 : s = "TRUE"
    · simp [castToValue, typeName, builtinsCtor, pyEq, isTruthy, h1]
    · by_cases h2 : s = "FALSE"
      · simp [castToValue, typeName, builtinsCtor, pyEq, isTruthy, h1, h2]
      · simp [castToValue, typeName, builtinsCtor, pyEq, isTruthy, h1, h2]
  · rfl
  · simp only [castToValue, typeName, builtinsCtor, floatCtor]
    cases floatOfString s <;> simp

/-- C9, counterexample: the claim that `filter` always returns an
ordered sequence fails for Classification — its override is a bare
`pass` and returns `None` (an absent value), not a sequence. -/
theorem claim_C9_counterexample :
    Facet.filter (.classification classificationDefault) modelBase [elemBase] =
      .ok none := rfl

/-- C9, amended: for the variants that keep the base-class filter
(Attribute, PartOf, Property, Material), `filter` returns exactly the
input elements whose evaluation passes, in input order; Entity with a
string name ignores the input elements and returns the model's
elements of exactly that declared type (case-insensitively), in model
order, narrowed by evaluation when `predefinedType` is set; but
Classification's filter is an unimplemented stub returning an absent
value. -/
theorem claim_C9_amended (m : Model) (es : List Element) :
    (∀ f : Facet, f.usesBaseFilter = true →
      Facet.filter f m es = (filterPass (Facet.call f m) es).map some) ∧
    (∀ (g : Entity) (nm : String), g.name = .val (.VStr nm) →
      isTruthyF g.predefinedType = false →
      Facet.filter (.entity g) m es =
        .ok (some (m.elements.filter (fun e => upperStr e.is_a = upperStr nm)))) ∧
    (∀ (g : Entity) (nm : String), g.name = .val (.VStr nm) →
      isTruthyF g.predefinedType = true →
      Facet.filter (.entity g) m es =
        (filterPass (Facet.call (.entity g) m)
          (m.elements.filter (fun e => upperStr e.is_a = upperStr nm))).map some) ∧
    (∀ g : Classification, Facet.filter (.classification g) m es = .ok none) := by
  refine ⟨fun f h => ?_, fun g nm hname hpt => ?_, fun g nm hname hpt => ?_, fun g => rfl⟩
  · cases f with
    | entity g => simp [Facet.usesBaseFilter] at h
    | classification g => simp [Facet.usesBaseFilter] at h
    | attr g => rfl
    | partOf g => rfl
    | prop g => rfl
    | material g => rfl
  · simp [Facet.filter, hname, hpt, by_type]
  · simp [Facet.filter, hname, hpt, by_type]

/-- C9, witness: the base filter at a concrete Attribute facet over a
two-element list, and Entity's declared-type selection at a concrete
Entity facet. -/
theorem claim_C9_witness :
    Facet.filter (.attr attrFilterW) modelBase [elemNameBar, elemBase] =
      (filterPass (Facet.call (.attr attrFilterW) modelBase)
        [elemNameBar, elemBase]).map some ∧
    Facet.filter (.entity entityWallW) modelBase [elemNameBar, elemBase] =
      .ok (some (modelBase.elements.filter
        (fun e => upperStr e.is_a = upperStr "IfcWall"))) :=
  ⟨(claim_C9_amended modelBase [elemNameBar, elemBase]).1 (.attr attrFilterW) rfl,
   (claim_C9_amended modelBase [elemNameBar, elemBase]).2.1 entityWallW "IfcWall" rfl rfl⟩

/-- C10: matching any falsy candidate other than numeric zero against
any Restriction returns `False` without evaluating the restriction
(and without touching its state), even when the constraint itself
would accept the candidate; a candidate equal to `0` passes the guard
and is evaluated by the per-kind body as normal. -/
theorem claim_C10 (r : Restriction) (v : PyVal)
    (h1 : isTruthy v = false) (h2 : pyEq v (.VInt 0) = false) :
    Restriction.eq r v = .ok (false, r) ∧
    ∀ (r2 : Restriction) (v2 : PyVal), pyEq v2 (.VInt 0) = true →
      Restriction.eq r2 v2 = Restriction.eqBody r2 v2 := by
  constructor
  · simp [Restriction.eq, h1, h2]
  · intro r2 v2 h
    simp [Restriction.eq, h]

/-- C10, witness: the empty string against a length restriction that
accepts exactly length-zero values is still rejected. -/
theorem claim_C10_witness :
    Restriction.eq restrLenZero (.VStr "") = .ok (false, restrLenZero) :=
  (claim_C10 restrLenZero (.VStr "") rfl rfl).1

/-- C8, counterexample: matching `True` against an enumeration
Restriction with base `bool` and options `["TRUE"]` succeeds, but
overwrites the restriction's options with their lowercased forms —
the facet's restriction state is not left unchanged. -/
theorem claim_C8_counterexample :
    Restriction.eq restrEnumBoolTRUE (.VBool true) = .ok (true, restrEnumBoolLower) ∧
    restrEnumBoolTRUE ≠ restrEnumBoolLower := by
  refine ⟨rfl, by decide⟩

/-- C8, amended: a match that returns (rather than raising) preserves
the restriction's kind and base, and preserves it entirely except in
the enumeration/bool branch, which lowercases the options in place;
the mutation is idempotent — re-evaluating on the post state returns
the same boolean and the same state, so two successive evaluations
produce equal results. -/
theorem claim_C8_amended (r : Restriction) (v : PyVal) (b : Bool) (r2 : Restriction)
    (h : Restriction.eq r v = .ok (b, r2)) :
    r2.type = r.type ∧ r2.base = r.base ∧
    (¬ (r.type = "enumeration" ∧ r.base = "bool") → r2 = r) ∧
    Restriction.eq r2 v = .ok (b, r2) := by
  unfold Restriction.eq at h ⊢
  by_cases hg : (isTruthy v || pyEq v (.VInt 0)) = true
  · rw [if_pos hg] at h
    rw [if_pos hg]
    unfold Restriction.eqBody at h ⊢
    by_cases ht : r.type = "enumeration" ∧ r.base = "bool"
    · rw [if_pos ht] at h
      cases ho : pyIter r.options with
      | error e => rw [ho] at h; simp at h
      | ok opts =>
        rw [ho] at h
        simp only [exceptBind_ok] at h
        cases hm : mapExc lowerVal opts with
        | error e => rw [hm] at h; simp at h
        | ok lowered =>
          rw [hm] at h
          simp only [exceptBind_ok, Except.ok.injEq, Prod.mk.injEq] at h
          obtain ⟨hb, hr2⟩ := h
          have hty : r2.type = r.type := by rw [← hr2]
          have hba : r2.base = r.base := by rw [← hr2]
          refine ⟨hty, hba, fun hc => absurd ht hc, ?_⟩
          rw [if_pos (by rw [hty, hba]; exact ht)]
          have hi2 : pyIter r2.options = .ok lowered := by
            rw [← hr2]
            rfl
          rw [hi2, exceptBind_ok, mapExc_lowerVal_idem opts lowered hm, exceptBind_ok]
          dsimp only
          rw [hb]
          have hfix :
              ({ type := r2.type, base := r2.base, options := .VList lowered } : Restriction)
                = r2 := by
            rw [hty, hba]
            exact hr2
          rw [hfix]
    · rw [if_neg ht] at h
      cases he : Restriction.eqRest r v with
      | error e => rw [he] at h; simp at h
      | ok b2 =>
        rw [he] at h
        simp only [exceptMap_ok, Except.ok.injEq, Prod.mk.injEq] at h
        obtain ⟨hb, hr2⟩ := h
        subst hr2
        refine ⟨rfl, rfl, fun _ => rfl, ?_⟩
        rw [if_neg ht, he, exceptMap_ok, hb]
  · rw [if_neg hg] at h
    rw [if_neg hg]
    simp only [Except.ok.injEq, Prod.mk.injEq] at h
    obtain ⟨hb, hr2⟩ := h
    subst hr2
    exact ⟨rfl, rfl, fun _ => rfl, by rw [hb]⟩

/-- C8, witness: re-evaluating the lowercased restriction is stable. -/
theorem claim_C8_witness :
    Restriction.eq restrEnumBoolLower (.VBool true) = .ok (true, restrEnumBoolLower) :=
  (claim_C8_amended restrEnumBoolTRUE (.VBool true) true restrEnumBoolLower rfl).2.2.2

end IfcTester
